import Mathlib

/-!
Verification of the vim-chatgpt agent core against its specification.

This file shallowly embeds the Python modules `chatgpt/tools.py`,
`chatgpt/core.py`, `chatgpt/summary.py` and `chatgpt/providers.py`:
pure logic is transcribed directly; filesystem, subprocess and editor
effects are abstracted as explicit environment records whose fields
return `Except`-style outcomes, so exceptional control flow in the
Python source becomes explicit error propagation here.  Machine-level
details that no statement below depends on (sizes are plain integers,
text is `String`) keep the model executable and decidable.
-/

namespace VimLlmAgent

/-! ## String helpers modelling Python primitives -/

/-- Is `pre` a prefix of `l`? -/
def charPrefix : List Char → List Char → Bool
  | [], _ => true
  | _ :: _, [] => false
  | a :: as, b :: bs => a = b && charPrefix as bs

/-- Does `pat` occur as a contiguous sublist of the haystack? -/
def charContains : List Char → List Char → Bool
  | [], pat => pat.isEmpty
  | a :: as, pat => charPrefix pat (a :: as) || charContains as pat

/-- Models the Python `in` operator on strings. -/
def strContains (s pat : String) : Bool :=
  charContains s.data pat.data

/-- Models `str.startswith`. -/
def pyStartsWith (s pre : String) : Bool :=
  charPrefix pre.data s.data

/-- Models `str.endswith`. -/
def pyEndsWith (s suf : String) : Bool :=
  charPrefix suf.data.reverse s.data.reverse

/-- ASCII lowering of one character (the cases the source compares). -/
def pyLowerChar (c : Char) : Char :=
  if 'A' ≤ c && c ≤ 'Z' then Char.ofNat (c.toNat + 32) else c

/-- Models `str.lower()` for the ASCII texts compared here. -/
def pyToLower (s : String) : String :=
  String.mk (s.data.map pyLowerChar)

/-- Fuel-driven splitter on a nonempty separator (structural so that
closed instances evaluate); with fuel at least the text length it
computes Python `str.split(sep)` semantics: greedy, non-overlapping,
left to right. -/
def charSplitOnFuel (sep : List Char) : Nat → List Char → List Char → List (List Char)
  | _, acc, [] => [acc.reverse]
  | 0, acc, rest => [acc.reverse ++ rest]
  | Nat.succ fuel, acc, a :: as =>
      if !sep.isEmpty && charPrefix sep (a :: as) then
        acc.reverse :: charSplitOnFuel sep fuel [] (List.drop sep.length (a :: as))
      else
        charSplitOnFuel sep fuel (a :: acc) as

/-- Models `s.split(sep)` for a nonempty separator. -/
def pySplitOn (s sep : String) : List String :=
  (charSplitOnFuel sep.data (s.data.length + 1) [] s.data).map String.mk

/-- The ASCII whitespace characters matched by the regex class `\s`
(and stripped by `str.rstrip()`). -/
def isPySpace (c : Char) : Bool :=
  c = ' ' || c = '\t' || c = '\n' || c = '\r' || c = '\x0b' || c = '\x0c'

/-- Core of `hasNumberedStep`: a digit immediately followed by a period
and one whitespace character occurs in the character list.  A match of
the regex `\d+\.\s+` exists iff such a three-character window exists
(the final digit of the `\d+` run is the witness). -/
def hasNumberedStepAux : List Char → Bool
  | a :: b :: c :: rest =>
      (a.isDigit && b = '.' && isPySpace c) || hasNumberedStepAux (b :: c :: rest)
  | _ => false

/-- Models `re.search(r"\d+\.\s+", s)` from core.py line 358: the text
contains a numbered step. -/
def hasNumberedStep (s : String) : Bool :=
  hasNumberedStepAux s.data

/-- Models Python `str.rstrip()` (default whitespace). -/
def pyRstrip (s : String) : String :=
  String.mk (s.data.reverse.dropWhile isPySpace).reverse

/-- Models Python `str.strip()` (default whitespace). -/
def pyStrip (s : String) : String :=
  String.mk (((s.data.dropWhile isPySpace).reverse.dropWhile isPySpace).reverse)

/-- Insertion into a sorted list of strings, code-point order
(Python `sorted` on `str` compares by code point, as `String.le` does). -/
def insertSorted (x : String) : List String → List String
  | [] => [x]
  | y :: ys => if x ≤ y then x :: y :: ys else y :: insertSorted x ys

/-- Models Python `sorted` on a list of strings. -/
def pySorted (l : List String) : List String :=
  l.foldr insertSorted []

/-- Models `os.path.join(a, b)` for the relative second components used
in tools.py (never absolute, never empty). -/
def pyJoin (a b : String) : String :=
  if a = "" then b else if pyEndsWith a "/" then a ++ b else a ++ "/" ++ b

/-- Models `os.path.dirname` for `/`-separated paths as exercised by
tools.py (paths with at least one separator component). -/
def pyDirname (p : String) : String :=
  let parts := pySplitOn p "/"
  if parts.length ≤ 1 then "" else String.intercalate "/" parts.dropLast

/-- Models Python `str.count(pat)` for nonempty `pat` (number of
non-overlapping occurrences, scanning left to right). -/
def countOccurrences (s pat : String) : Nat :=
  (pySplitOn s pat).length - 1

/-- Models Python `str.replace(pat, new, 1)`: replace the first
occurrence only. -/
def pyReplaceFirst (s pat new : String) : String :=
  match pySplitOn s pat with
  | a :: b :: rest => a ++ new ++ String.intercalate pat (b :: rest)
  | _ => s

/-- Models Python `max(0, x)` on integers. -/
def pyMax0 (x : Int) : Int :=
  if x < 0 then 0 else x

/-! ## Python exceptions

The exception classes the source distinguishes in its `except` clauses.
All of them are subclasses of `Exception`, so a blanket
`except Exception` catches every constructor; `str(e)` is the carried
message. -/

inductive PyExc where
  | timeoutExpired (msg : String)
  | fileNotFound (msg : String)
  | permissionError (msg : String)
  | vimError (msg : String)
  | otherError (msg : String)
deriving Repr, DecidableEq

/-- `str(e)` on a caught exception. -/
def PyExc.msg : PyExc → String
  | .timeoutExpired m => m
  | .fileNotFound m => m
  | .permissionError m => m
  | .vimError m => m
  | .otherError m => m

/-! ## validate_file_path (tools.py lines 331-453) -/

/-- Outcome of the Vim `confirm()` dialog used for out-of-project paths:
`1` means Yes, anything else (including an empty result) means No, and
the prompt itself can raise (non-interactive mode). -/
inductive ConfirmOutcome where
  | yes
  | no
  | fails (msg : String)
deriving Repr, DecidableEq

/-- The path semantics `validate_file_path` consults, abstracting
`os.path` and the user-confirmation channel.  `realpathOf` models
`os.path.realpath(os.path.abspath(p))` (with the abspath fallback on
realpath failure), `normParts` models
`os.path.normpath(p).split(os.sep)`, and `withinProject` models
`os.path.commonpath([cwd, realpath]) == cwd` (false as well when
`commonpath` raises `ValueError`). -/
structure PathEnv where
  cwd : String
  realpathOf : String → String
  normParts : String → List String
  withinProject : String → Bool
  confirmOutsideProject : String → ConfirmOutcome

/-- The blocked-pattern list of tools.py lines 359-377, lowercased; the
source matches them as case-insensitive anchored regex prefixes. -/
def blockedPatternLiterals : List String :=
  ["/etc/", "/private/etc/", "/sys/", "/proc/", "/dev/", "/root/", "/boot/",
   "/bin/", "/sbin/", "/lib", "/usr/bin/", "/usr/sbin/", "/usr/lib",
   "c:\\windows\\", "c:\\program files", "/system/", "/library/system"]

/-- Does the resolved path match one of the always-deny system-path
patterns (tools.py lines 379-380, `re.match` with `re.IGNORECASE`)? -/
def isBlockedSystemPath (realPath : String) : Bool :=
  blockedPatternLiterals.any (fun p => pyStartsWith (pyToLower realPath) p)

/-- Result of `validate_file_path`.  The source returns the pair
`(is_valid, error_message)`; the extra `prompted` field instruments
whether the Vim confirmation dialog was reached, so that silent allows
can be distinguished from user-approved ones. -/
structure PathVerdict where
  ok : Bool
  msg : Option String
  prompted : Bool
deriving Repr, DecidableEq

/-- tools.py `validate_file_path`: blocked system prefixes are denied
without prompting, then a `..` component denies without prompting, then
paths inside the project are allowed silently, and everything else asks
the user, defaulting to deny when the dialog fails. -/
def validate_file_path (env : PathEnv) (filePath operation : String) : PathVerdict :=
  let realPath := env.realpathOf filePath
  if isBlockedSystemPath realPath then
    { ok := false,
      msg := some ("Security: " ++ operation ++ " denied. Cannot modify system path: " ++ filePath),
      prompted := false }
  else if (env.normParts filePath).contains ".." then
    { ok := false,
      msg := some ("Security: " ++ operation ++ " denied. Path contains '..' traversal: " ++ filePath),
      prompted := false }
  else if env.withinProject realPath then
    { ok := true, msg := none, prompted := false }
  else
    match env.confirmOutsideProject filePath with
    | .yes => { ok := true, msg := none, prompted := true }
    | .no =>
        { ok := false,
          msg := some ("Security: " ++ operation ++ " denied by user. Path '" ++ filePath ++ "' is outside project directory."),
          prompted := true }
    | .fails _ =>
        { ok := false,
          msg := some ("Security: " ++ operation ++ " denied. Path '" ++ filePath ++ "' is outside project directory and user confirmation failed."),
          prompted := true }

/-- `validate_file_path` applied to an optional argument: a missing
`file_path` (Python `None`) makes `os.path.abspath` raise, which the
function's own blanket handler converts into the validation-error
tuple (tools.py lines 452-453). -/
def validateOpt (env : PathEnv) (fp : Option String) (operation : String) : PathVerdict :=
  match fp with
  | some p => validate_file_path env p operation
  | none =>
      { ok := false,
        msg := some "Security: Error validating path: file path is not a string",
        prompted := false }

/-! ## check_tool_approval (tools.py lines 476-541) -/

/-- Outcome of the `inputlist()` approval prompt: the parsed integer
choice, an empty result (treated as 0 by the source), or a raised
error (`vim.eval` failure or `int()` failure), caught by the
function's handler. -/
inductive PromptOutcome where
  | choice (n : Int)
  | emptyResult
  | fails (msg : String)
deriving Repr, DecidableEq

/-- The module-level `_approved_tools` dict: tool name to status
string.  New entries are consed on the front; `lookup` finds the
most recent binding, and the source only inserts names that are not
yet present. -/
abbrev ApprovalCache := List (String × String)

/-- Result of `check_tool_approval`: the pair the source returns plus
the possibly-updated cache and whether the user was prompted. -/
structure ApprovalResult where
  approved : Bool
  msg : Option String
  cache : ApprovalCache
  prompted : Bool
deriving Repr, DecidableEq

/-- tools.py `check_tool_approval`: approval disabled by config short-
circuits to approved; a cached `denied` refuses and anything else
cached approves, both without prompting; otherwise the user is
prompted, where 1 allows once without caching, 2 caches `always`, and
every other outcome (including 0 for cancel) caches `denied`; a
prompt failure refuses without caching. -/
def check_tool_approval (requireApproval : String) (cache : ApprovalCache)
    (toolName : String) (prompt : PromptOutcome) : ApprovalResult :=
  if requireApproval = "0" then
    { approved := true, msg := none, cache := cache, prompted := false }
  else
    match cache.lookup toolName with
    | some status =>
        if status = "denied" then
          { approved := false,
            msg := some ("Tool '" ++ toolName ++ "' was denied by user"),
            cache := cache, prompted := false }
        else
          { approved := true, msg := none, cache := cache, prompted := false }
    | none =>
        match prompt with
        | .fails m =>
            { approved := false, msg := some ("Tool approval failed: " ++ m),
              cache := cache, prompted := true }
        | .emptyResult =>
            { approved := false,
              msg := some ("Tool '" ++ toolName ++ "' denied by user"),
              cache := (toolName, "denied") :: cache, prompted := true }
        | .choice n =>
            if n = 1 then
              { approved := true, msg := none, cache := cache, prompted := true }
            else if n = 2 then
              { approved := true, msg := none,
                cache := (toolName, "always") :: cache, prompted := true }
            else
              { approved := false,
                msg := some ("Tool '" ++ toolName ++ "' denied by user"),
                cache := (toolName, "denied") :: cache, prompted := true }

/-! ## execute_tool (tools.py lines 544-1341)

Every branch of the dispatcher is transcribed.  Filesystem, subprocess
and Vim effects are supplied by a `ToolEnv` record; an operation that
can raise returns `Except PyExc`.  A branch that has its own
`try/except` resolves those exceptions to strings itself (returning
`.ok`), so only exceptions the source leaves uncaught (the two
branches without an inner handler, `find_in_file` and
`find_file_in_project`) propagate to the dispatcher's outer handler. -/

/-- The argument mapping of a tool call.  The source receives a JSON
object and reads keys with `arguments.get`; each key used by some
branch is a field here, absent keys are `none`.  A required argument
that is absent flows into an operation that raises `TypeError` in
Python; the model takes the corresponding error path directly. -/
structure ToolArgs where
  file_path : Option String := none
  path : Option String := none
  show_hidden : Option Bool := none
  pattern : Option String := none
  case_sensitive : Option Bool := none
  use_regex : Option Bool := none
  max_results : Option Int := none
  max_lines : Option Int := none
  content : Option String := none
  overwrite : Option Bool := none
  split : Option String := none
  line_number : Option Int := none
  old_content : Option String := none
  new_content : Option String := none
  start_line : Option Int := none
  end_line : Option Int := none
  staged : Option Bool := none
  oneline : Option Bool := none
  max_count : Option Int := none
  commit : Option String := none
  list_all : Option Bool := none
  files : Option (List String) := none
  message : Option String := none
  amend : Option Bool := none
deriving Repr, DecidableEq

/-- A completed `subprocess.run(..., capture_output=True, text=True)`. -/
structure RunResult where
  returncode : Int
  stdout : String
  stderr : String
deriving Repr, DecidableEq

/-- The effect environment of `execute_tool`.  `readLines` models
line iteration / `readlines()` (physical lines, keeping their newline
characters); `writeOutcome` tells whether writing a given path raises
(the content written is recorded by the model itself);
`recentHistoryWindow` is `int(get_config("recent_history_size",
"30480"))` and `today` the date used in the summary metadata. -/
structure ToolEnv where
  pathEnv : PathEnv
  requireApproval : String
  approvalPrompt : PromptOutcome
  getcwd : Except PyExc String
  abspath : String → String
  pathExists : String → Bool
  isDir : String → Bool
  isFile : String → Bool
  listDir : String → Except PyExc (List String)
  fileSize : String → Except PyExc Int
  fmtSize : Int → String
  readLines : String → Except PyExc (List String)
  readWhole : String → Except PyExc String
  writeOutcome : String → Option PyExc
  makeDirs : String → Option PyExc
  run : List String → Except PyExc RunResult
  vimEval : String → Except PyExc String
  vimCommandOutcome : String → Option PyExc
  recentHistoryWindow : Int
  today : String

/-- What a tool execution produced: the string handed back as the
ToolResult, and the files written with their full contents. -/
structure ToolOutcome where
  result : String
  writes : List (String × String) := []
deriving Repr, DecidableEq

/-- `vim.command` as an `Except` action. -/
def vimDo (env : ToolEnv) (c : String) : Except PyExc Unit :=
  match env.vimCommandOutcome c with
  | some e => .error e
  | none => .ok ()

/-- tools.py lines 556-561: `get_working_directory`. -/
def toolGetWorkingDirectory (env : ToolEnv) : Except PyExc ToolOutcome :=
  match env.getcwd with
  | .ok cwd => .ok { result := "Current working directory: " ++ cwd }
  | .error e => .ok { result := "Error getting working directory: " ++ e.msg }

/-- tools.py lines 563-627: `list_directory`.  The per-file size
annotation abstracts the f-string rendering through `env.fmtSize`; a
`getsize` failure drops the annotation (the bare `except` at line
611). -/
def toolListDirectory (env : ToolEnv) (args : ToolArgs) : Except PyExc ToolOutcome :=
  let path := args.path.getD "."
  let showHidden := args.show_hidden.getD false
  if !env.pathExists path then .ok { result := "Directory not found: " ++ path }
  else if !env.isDir path then .ok { result := "Not a directory: " ++ path }
  else
    match env.listDir path with
    | .error (.permissionError _) =>
        .ok { result := "Permission denied accessing directory: " ++ path }
    | .error e => .ok { result := "Error listing directory: " ++ e.msg }
    | .ok items0 =>
        let items := if showHidden then items0 else items0.filter (fun it => !pyStartsWith it ".")
        let dirs := pySorted (items.filter (fun it => env.isDir (pyJoin path it)))
        let files := pySorted (items.filter (fun it => env.isFile (pyJoin path it)))
        let dirLines := dirs.map (fun d => "  " ++ d ++ "/")
        let fileLines := files.map (fun f =>
          match env.fileSize (pyJoin path f) with
          | .ok size => "  " ++ f ++ " (" ++ env.fmtSize size ++ ")"
          | .error _ => "  " ++ f)
        if dirs.isEmpty && files.isEmpty then .ok { result := "Directory is empty: " ++ path }
        else
          let part1 := if dirs.isEmpty then [] else "Directories:" :: dirLines
          let sep := if !files.isEmpty && !dirs.isEmpty then [""] else []
          let part2 := if files.isEmpty then [] else "Files:" :: fileLines
          let header := "Listing " ++ path ++ " (" ++ toString dirs.length ++
            " directories, " ++ toString files.length ++ " files):\n"
          .ok { result := String.intercalate "\n" (header :: (part1 ++ sep ++ part2)) }

/-- tools.py lines 629-662: `find_in_file`.  No inner handler: a
failing `subprocess.run` (including a timeout) propagates to the
dispatcher, as does the `TypeError` a missing argument provokes. -/
def toolFindInFile (env : ToolEnv) (args : ToolArgs) : Except PyExc ToolOutcome :=
  match args.file_path, args.pattern with
  | some filePath, some pat =>
      let caseSensitive := args.case_sensitive.getD false
      let useRegex := args.use_regex.getD false
      let cmd := ["grep", "-n"] ++ (if useRegex then ["-E"] else ["-F"]) ++
        (if caseSensitive then [] else ["-i"]) ++ [pat, filePath]
      match env.run cmd with
      | .error e => .error e
      | .ok result =>
          if result.returncode = 0 then .ok { result := pyStrip result.stdout }
          else if result.returncode = 1 then
            .ok { result := "No matches found for '" ++ pat ++ "' in " ++ filePath }
          else if strContains (pyToLower result.stderr) "invalid" ||
              strContains (pyToLower result.stderr) "unmatched" then
            .ok { result := "Invalid regex pattern '" ++ pat ++ "'. Error: " ++ pyStrip result.stderr }
          else .ok { result := "Error searching file: " ++ pyStrip result.stderr }
  | _, _ => .error (.otherError "expected str, not NoneType")

/-- tools.py lines 664-693: `find_file_in_project`.  No inner handler.
Note the source quirks kept here: the truncation note reports the
length of the already-truncated list, and only the no-match message
gets a trailing newline in the untruncated case (the `+ "\n"` binds
to the conditional's else operand). -/
def toolFindFileInProject (env : ToolEnv) (args : ToolArgs) : Except PyExc ToolOutcome :=
  match args.pattern with
  | none => .error (.otherError "expected str, not NoneType")
  | some pat =>
      let maxResults := args.max_results.getD 20
      match env.getcwd with
      | .error e => .error e
      | .ok _ =>
          match env.run ["find", ".", "-name", pat, "-type", "f"] with
          | .error e => .error e
          | .ok result =>
              if result.returncode = 0 then
                let files0 := pySplitOn (pyStrip result.stdout) "\n"
                let files1 := files0.filter (fun f => f ≠ "")
                if maxResults < (files1.length : Int) then
                  let files2 := files1.take maxResults.toNat
                  .ok { result := String.intercalate "\n" files2 ++ "\n... (" ++
                    toString files2.length ++ " results shown, more available)" ++ "\n" }
                else if !files1.isEmpty then
                  .ok { result := String.intercalate "\n" files1 }
                else
                  .ok { result := "No files found matching pattern: " ++ pat ++ "\n" }
              else .ok { result := "Error finding files: " ++ pyStrip result.stderr }

/-- tools.py lines 695-713: `read_file`.  Reads at most `max_lines`
lines, right-stripping each; when the file is longer a truncation
marker line is appended.  All exceptions are resolved inside the
branch. -/
def toolReadFile (env : ToolEnv) (args : ToolArgs) : Except PyExc ToolOutcome :=
  let maxLines := args.max_lines.getD 100
  match args.file_path with
  | none => .ok { result := "Error reading file: expected str, not NoneType" }
  | some filePath =>
      match env.readLines filePath with
      | .error (.fileNotFound _) => .ok { result := "File not found: " ++ filePath }
      | .error (.permissionError _) =>
          .ok { result := "Permission denied reading file: " ++ filePath }
      | .error e => .ok { result := "Error reading file: " ++ e.msg }
      | .ok ls =>
          let n := maxLines.toNat
          let kept := (ls.take n).map pyRstrip
          let outLines :=
            if n < ls.length then
              kept ++ ["... (truncated at " ++ toString maxLines ++ " lines)"]
            else kept
          .ok { result := String.intercalate "\n" outLines ++ "\n" }

/-- The SUMMARY_METADATA header `create_file` prepends for plugin
summary files (tools.py lines 769-774). -/
def summaryMetadataHeader (cutoff : Int) (today : String) : String :=
  "<!-- SUMMARY_METADATA\ncutoff_byte: " ++ toString cutoff ++
    "\nlast_updated: " ++ today ++ "\n-->\n\n"

/-- tools.py lines 715-786: `create_file`.  The path gate runs first;
then the exists/overwrite check, directory creation, the silent
metadata prepend for `.vim-chatgpt/summary.md` or
`.vim-llm-agent/summary.md` targets (cutoff from the sibling
history.txt size minus the configured recent window, 0 without a
history file; the old cutoff is read from an existing summary but
never used), and finally the write. -/
def toolCreateFile (env : ToolEnv) (args : ToolArgs) : Except PyExc ToolOutcome :=
  let content0 := args.content.getD ""
  let overwrite := args.overwrite.getD false
  let v := validateOpt env.pathEnv args.file_path "create file"
  if !v.ok then .ok { result := v.msg.getD "" }
  else
    match args.file_path with
    | none => .ok { result := v.msg.getD "" }
    | some filePath =>
        if env.pathExists filePath && !overwrite then
          .ok { result := "File already exists: " ++ filePath ++ ". Set overwrite=true to replace it." }
        else
          let directory := pyDirname filePath
          let mkdirsOutcome :=
            if directory ≠ "" && !env.pathExists directory then env.makeDirs directory else none
          match mkdirsOutcome with
          | some (.permissionError _) =>
              .ok { result := "Permission denied creating file: " ++ filePath }
          | some e => .ok { result := "Error creating file: " ++ e.msg }
          | none =>
              if pyEndsWith filePath ".vim-chatgpt/summary.md" ||
                  pyEndsWith filePath ".vim-llm-agent/summary.md" then
                let recentWindow := env.recentHistoryWindow
                let summaryDir := pyDirname filePath
                let historyFile := pyJoin summaryDir "history.txt"
                let oldSummaryRead :=
                  if env.pathExists filePath then (env.readWhole filePath).map (fun _ => 0) else .ok 0
                match oldSummaryRead with
                | .error e => .ok { result := "Error creating file: " ++ e.msg }
                | .ok _ =>
                    match (if env.pathExists historyFile then env.fileSize historyFile else .ok 0) with
                    | .error e => .ok { result := "Error creating file: " ++ e.msg }
                    | .ok historySize =>
                        let newCutoff :=
                          if env.pathExists historyFile then pyMax0 (historySize - recentWindow) else 0
                        let content := summaryMetadataHeader newCutoff env.today ++ content0
                        match env.writeOutcome filePath with
                        | some (.permissionError _) =>
                            .ok { result := "Permission denied creating file: " ++ filePath }
                        | some e => .ok { result := "Error creating file: " ++ e.msg }
                        | none =>
                            .ok { result := "Successfully created file: " ++ filePath ++ " (" ++
                                    toString content.length ++ " characters)",
                                  writes := [(filePath, content)] }
              else
                match env.writeOutcome filePath with
                | some (.permissionError _) =>
                    .ok { result := "Permission denied creating file: " ++ filePath }
                | some e => .ok { result := "Error creating file: " ++ e.msg }
                | none =>
                    .ok { result := "Successfully created file: " ++ filePath ++ " (" ++
                            toString content0.length ++ " characters)",
                          writes := [(filePath, content0)] }

/-- The body of the `open_file` branch (tools.py lines 793-871),
raising freely; `toolOpenFile` applies the branch's two handlers. -/
def openFileBody (env : ToolEnv) (args : ToolArgs) : Except PyExc ToolOutcome := do
  let splitArg := args.split.getD "vertical"
  match args.file_path with
  | none => throw (.otherError "expected str, not NoneType")
  | some filePath =>
      if !env.pathExists filePath then
        return { result := "File not found: " ++ filePath }
      let absPath := env.abspath filePath
      let fileBufnr ← env.vimEval ("bufnr('" ++ absPath ++ "')")
      let visibleWin ←
        if fileBufnr ≠ "-1" then do
          let winnr ← env.vimEval ("bufwinnr(" ++ fileBufnr ++ ")")
          pure (if winnr ≠ "-1" then some winnr else none)
        else pure none
      match visibleWin with
      | some winnr => do
          vimDo env (winnr ++ "wincmd w")
          match args.line_number with
          | some ln =>
              if ln < 1 then
                return { result := "Switched to existing window with " ++ filePath ++
                  "\nWarning: Invalid line number " ++ toString ln ++ ", must be >= 1" }
              else
                match (do
                    vimDo env ("call cursor(" ++ toString ln ++ ", 1)")
                    vimDo env "normal! zz"
                    vimDo env "redraw") with
                | .ok _ =>
                    return { result := "Switched to existing window with " ++ filePath ++
                      " at line " ++ toString ln }
                | .error (.vimError m) =>
                    return { result := "Switched to existing window with " ++ filePath ++
                      "\nWarning: Could not jump to line " ++ toString ln ++ ": " ++ m }
                | .error e => throw e
          | none => return { result := "Switched to existing window with " ++ filePath }
      | none => do
          let currentBuffer ← env.vimEval "bufname('%')"
          let currentFile ← if currentBuffer ≠ "" then env.vimEval "expand('%:p')" else pure ""
          let actualSplit :=
            if currentFile ≠ "" && env.abspath currentFile = absPath then "current"
            else if currentBuffer = "gpt-persistent-session" then
              (if splitArg ≠ "current" then splitArg else "vertical")
            else splitArg
          let vimCmdStr :=
            if actualSplit = "horizontal" then "split " ++ filePath
            else if actualSplit = "vertical" then "vsplit " ++ filePath
            else "edit " ++ filePath
          vimDo env vimCmdStr
          match args.line_number with
          | some ln =>
              if ln < 1 then
                return { result := "Opened file in Vim: " ++ filePath ++ " (split=" ++ splitArg ++
                  ")\nWarning: Invalid line number " ++ toString ln ++ ", must be >= 1" }
              else
                match (do
                    vimDo env ("call cursor(" ++ toString ln ++ ", 1)")
                    vimDo env "normal! zz"
                    vimDo env "redraw") with
                | .ok _ =>
                    return { result := "Opened file in Vim: " ++ filePath ++ " at line " ++
                      toString ln ++ " (split=" ++ splitArg ++ ")" }
                | .error (.vimError m) =>
                    return { result := "Opened file in Vim: " ++ filePath ++ " (split=" ++
                      splitArg ++ ")\nWarning: Could not jump to line " ++ toString ln ++ ": " ++ m }
                | .error e => throw e
          | none =>
              return { result := "Opened file in Vim: " ++ filePath ++ " (split=" ++ splitArg ++ ")" }

/-- tools.py lines 788-875: `open_file` with its `vim.error` and
blanket handlers. -/
def toolOpenFile (env : ToolEnv) (args : ToolArgs) : Except PyExc ToolOutcome :=
  match openFileBody env args with
  | .ok o => .ok o
  | .error (.vimError m) => .ok { result := "Vim error opening file: " ++ m }
  | .error e => .ok { result := "Error opening file: " ++ e.msg }

/-- tools.py lines 877-914: `edit_file`.  Gate, unique-occurrence
check, first-occurrence replacement, write-back. -/
def toolEditFile (env : ToolEnv) (args : ToolArgs) : Except PyExc ToolOutcome :=
  let v := validateOpt env.pathEnv args.file_path "edit file"
  if !v.ok then .ok { result := v.msg.getD "" }
  else
    match args.file_path with
    | none => .ok { result := v.msg.getD "" }
    | some filePath =>
        match env.readWhole filePath with
        | .error (.fileNotFound _) => .ok { result := "File not found: " ++ filePath }
        | .error (.permissionError _) =>
            .ok { result := "Permission denied editing file: " ++ filePath }
        | .error e => .ok { result := "Error editing file: " ++ e.msg }
        | .ok content =>
            match args.old_content, args.new_content with
            | some oldContent, some newContent =>
                if !strContains content oldContent then
                  .ok { result := "Content not found in " ++ filePath ++
                    ". The exact content must match including whitespace." }
                else if 1 < countOccurrences content oldContent then
                  .ok { result := "Found " ++ toString (countOccurrences content oldContent) ++
                    " occurrences of the content in " ++ filePath ++
                    ". Please provide more specific content to replace (include more surrounding context)." }
                else
                  let newFileContent := pyReplaceFirst content oldContent newContent
                  match env.writeOutcome filePath with
                  | some (.permissionError _) =>
                      .ok { result := "Permission denied editing file: " ++ filePath }
                  | some e => .ok { result := "Error editing file: " ++ e.msg }
                  | none =>
                      .ok { result := "Successfully edited " ++ filePath ++ ": replaced " ++
                              toString oldContent.length ++ " characters with " ++
                              toString newContent.length ++ " characters",
                            writes := [(filePath, newFileContent)] }
            | _, _ => .ok { result := "Error editing file: argument is not a string" }

/-- tools.py lines 968-991: newline handling for the replacement lines
of `edit_file_lines`.  `origEndLine` is the original line at
`end_idx`; a last replacement line gets a newline when replacing in
the middle of the file, or when the new content or the replaced final
line ended with one. -/
def formatReplacementLines (newLines : List String) (hadTrailing : Bool)
    (endIdx totalLines : Nat) (origEndLine : String) : List String :=
  newLines.enum.map (fun p =>
    if p.1 = newLines.length - 1 then
      if endIdx < totalLines - 1 then p.2 ++ "\n"
      else if hadTrailing || (endIdx = totalLines - 1 && pyEndsWith origEndLine "\n") then p.2 ++ "\n"
      else p.2
    else p.2 ++ "\n")

/-- tools.py lines 916-1010: `edit_file_lines`.  Gate, 1-indexed
inclusive range checks, content splitting with trailing-newline
bookkeeping, splice, write-back. -/
def toolEditFileLines (env : ToolEnv) (args : ToolArgs) : Except PyExc ToolOutcome :=
  let v := validateOpt env.pathEnv args.file_path "edit file"
  if !v.ok then .ok { result := v.msg.getD "" }
  else
    match args.file_path, args.start_line, args.end_line, args.new_content with
    | some filePath, some startLine, some endLine, some newContent =>
        if startLine < 1 then
          .ok { result := "Invalid start_line: " ++ toString startLine ++
            ". Line numbers must be >= 1." }
        else if endLine < startLine then
          .ok { result := "Invalid line range: end_line (" ++ toString endLine ++
            ") must be >= start_line (" ++ toString startLine ++ ")." }
        else
          match env.readLines filePath with
          | .error (.fileNotFound _) => .ok { result := "File not found: " ++ filePath }
          | .error (.permissionError _) =>
              .ok { result := "Permission denied editing file: " ++ filePath }
          | .error e => .ok { result := "Error editing file by lines: " ++ e.msg }
          | .ok lines =>
              let totalLines := lines.length
              if (totalLines : Int) < startLine then
                .ok { result := "start_line (" ++ toString startLine ++
                  ") exceeds file length (" ++ toString totalLines ++ " lines)." }
              else if (totalLines : Int) < endLine then
                .ok { result := "end_line (" ++ toString endLine ++
                  ") exceeds file length (" ++ toString totalLines ++ " lines)." }
              else
                let startIdx := (startLine - 1).toNat
                let endIdx := (endLine - 1).toNat
                let newLines0 := if newContent ≠ "" then pySplitOn newContent "\n" else []
                let hadTrailing := newLines0 ≠ [] && newLines0.getLast! = ""
                let newLines := if hadTrailing then newLines0.dropLast else newLines0
                let origEndLine := (lines.drop endIdx).headD ""
                let formatted := formatReplacementLines newLines hadTrailing endIdx totalLines origEndLine
                let newFileLines := lines.take startIdx ++ formatted ++ lines.drop (endIdx + 1)
                match env.writeOutcome filePath with
                | some (.permissionError _) =>
                    .ok { result := "Permission denied editing file: " ++ filePath }
                | some e => .ok { result := "Error editing file by lines: " ++ e.msg }
                | none =>
                    .ok { result := "Successfully edited " ++ filePath ++ ": replaced lines " ++
                            toString startLine ++ " through " ++ toString endLine ++
                            " inclusive (" ++ toString (endIdx - startIdx + 1) ++
                            " line(s) removed, " ++ toString formatted.length ++ " line(s) added)",
                          writes := [(filePath, String.join newFileLines)] }
    | _, _, _, _ => .ok { result := "Error editing file by lines: argument is not an int" }

/-- tools.py lines 1013-1048: `git_status` (status plus a best-effort
recent-commit log). -/
def toolGitStatus (env : ToolEnv) : Except PyExc ToolOutcome :=
  match env.run ["git", "status"] with
  | .error e => .ok { result := "Error running git status: " ++ e.msg }
  | .ok r =>
      if r.returncode = 0 then
        let base := ["=== Git Status ===", r.stdout]
        let parts :=
          match env.run ["git", "log", "-5", "--oneline"] with
          | .ok lr =>
              if lr.returncode = 0 then base ++ ["\n=== Recent Commits ===", lr.stdout] else base
          | .error _ => base
        .ok { result := String.intercalate "\n" parts }
      else .ok { result := "Git error: " ++ r.stderr }

/-- tools.py lines 1050-1099: `git_diff` (short status for context,
then the staged or unstaged diff, optionally for one file). -/
def toolGitDiff (env : ToolEnv) (args : ToolArgs) : Except PyExc ToolOutcome :=
  let staged := args.staged.getD false
  let filePath := args.file_path.getD ""
  let statusParts :=
    match env.run ["git", "status", "-s"] with
    | .ok sr =>
        if sr.returncode = 0 then
          ["=== Git Status (short) ===", if pyStrip sr.stdout ≠ "" then sr.stdout else "No changes"]
        else []
    | .error _ => []
  let cmd := ["git", "diff"] ++ (if staged then ["--cached"] else []) ++
    (if filePath ≠ "" then [filePath] else [])
  match env.run cmd with
  | .error e => .ok { result := "Error running git diff: " ++ e.msg }
  | .ok r =>
      if r.returncode = 0 then
        let diffType := if staged then "Staged Changes" else "Unstaged Changes"
        let fileInfo := if filePath ≠ "" then " (" ++ filePath ++ ")" else ""
        let body := if pyStrip r.stdout ≠ "" then r.stdout else "No changes found."
        .ok { result := String.intercalate "\n" (statusParts ++ ["\n=== " ++ diffType ++ fileInfo ++ " ===", body]) }
      else .ok { result := "Git error: " ++ r.stderr }

/-- tools.py lines 1101-1124: `git_log`. -/
def toolGitLog (env : ToolEnv) (args : ToolArgs) : Except PyExc ToolOutcome :=
  let maxCount := args.max_count.getD 10
  let oneline := args.oneline.getD true
  let filePath := args.file_path.getD ""
  let cmd := ["git", "log", "-" ++ toString maxCount] ++
    (if oneline then ["--oneline"] else []) ++ (if filePath ≠ "" then [filePath] else [])
  match env.run cmd with
  | .error e => .ok { result := "Error running git log: " ++ e.msg }
  | .ok r =>
      if r.returncode = 0 then
        .ok { result := if pyStrip r.stdout ≠ "" then r.stdout else "No commits found." }
      else .ok { result := "Git error: " ++ r.stderr }

/-- tools.py lines 1126-1143: `git_show`. -/
def toolGitShow (env : ToolEnv) (args : ToolArgs) : Except PyExc ToolOutcome :=
  match args.commit with
  | none => .ok { result := "Error running git show: expected str, not NoneType" }
  | some commit =>
      match env.run ["git", "show", commit] with
      | .error e => .ok { result := "Error running git show: " ++ e.msg }
      | .ok r =>
          if r.returncode = 0 then .ok { result := r.stdout }
          else .ok { result := "Git error: " ++ r.stderr }

/-- tools.py lines 1145-1163: `git_branch`. -/
def toolGitBranch (env : ToolEnv) (args : ToolArgs) : Except PyExc ToolOutcome :=
  let listAll := args.list_all.getD false
  let cmd := if listAll then ["git", "branch", "-a"] else ["git", "branch", "--show-current"]
  match env.run cmd with
  | .error e => .ok { result := "Error running git branch: " ++ e.msg }
  | .ok r =>
      if r.returncode = 0 then .ok { result := pyStrip r.stdout }
      else .ok { result := "Git error: " ++ r.stderr }

/-- tools.py lines 1165-1207: `git_add` (stage, then best-effort short
status). -/
def toolGitAdd (env : ToolEnv) (args : ToolArgs) : Except PyExc ToolOutcome :=
  let files := args.files.getD []
  if files.isEmpty then .ok { result := "Error: No files specified to add." }
  else
    match env.run (["git", "add"] ++ files) with
    | .error e => .ok { result := "Error running git add: " ++ e.msg }
    | .ok r =>
        if r.returncode = 0 then
          let base := ["Successfully staged: " ++ String.intercalate ", " files]
          let parts :=
            match env.run ["git", "status", "-s"] with
            | .ok sr =>
                if sr.returncode = 0 then
                  base ++ ["\n=== Updated Status ===",
                    if pyStrip sr.stdout ≠ "" then sr.stdout else "No changes"]
                else base
            | .error _ => base
          .ok { result := String.intercalate "\n" parts }
        else .ok { result := "Git error: " ++ r.stderr }

/-- tools.py lines 1209-1230: `git_reset`. -/
def toolGitReset (env : ToolEnv) (args : ToolArgs) : Except PyExc ToolOutcome :=
  let files := args.files.getD []
  let cmd := ["git", "reset", "HEAD"] ++ files
  let successMsg :=
    if !files.isEmpty then "Successfully unstaged: " ++ String.intercalate ", " files
    else "Successfully unstaged all files."
  match env.run cmd with
  | .error e => .ok { result := "Error running git reset: " ++ e.msg }
  | .ok r =>
      if r.returncode = 0 then .ok { result := successMsg }
      else .ok { result := "Git error: " ++ r.stderr }

/-- tools.py lines 1232-1326: `git_commit` (context gathering is
best-effort with per-step warnings, then the commit itself with
canned messages for the nothing-staged cases). -/
def toolGitCommit (env : ToolEnv) (args : ToolArgs) : Except PyExc ToolOutcome :=
  let message := args.message.getD ""
  let amend := args.amend.getD false
  if message = "" && !amend then .ok { result := "Error: Commit message is required." }
  else
    let p1 :=
      match env.run ["git", "status"] with
      | .ok sr => if sr.returncode = 0 then ["=== Git Status ===", sr.stdout] else []
      | .error e => ["Warning: Could not get git status: " ++ e.msg]
    let p2 :=
      match env.run ["git", "diff", "--cached"] with
      | .ok dr =>
          if dr.returncode = 0 && pyStrip dr.stdout ≠ "" then
            ["\n=== Staged Changes (will be committed) ===", dr.stdout]
          else if dr.returncode = 0 then ["\n=== Staged Changes ===", "No staged changes found."]
          else []
      | .error e => ["\nWarning: Could not get staged changes: " ++ e.msg]
    let p3 :=
      match env.run ["git", "log", "-5", "--oneline"] with
      | .ok lr => if lr.returncode = 0 then ["\n=== Recent Commits ===", lr.stdout] else []
      | .error e => ["\nWarning: Could not get recent commits: " ++ e.msg]
    let infoParts := p1 ++ p2 ++ p3
    let cmd := ["git", "commit"] ++ (if amend then ["--amend"] else []) ++
      (if message ≠ "" then ["-m", message] else [])
    match env.run cmd with
    | .ok r =>
        if r.returncode = 0 then
          .ok { result := String.intercalate "\n" (infoParts ++ ["\n=== Commit Result ===", "Commit successful:\n" ++ r.stdout]) }
        else if strContains r.stderr "nothing to commit" ||
            strContains r.stderr "no changes added to commit" then
          .ok { result := String.intercalate "\n" (infoParts ++ ["\n=== Commit Result ===", "Error: No changes staged for commit. Use git_add first."]) }
        else
          .ok { result := String.intercalate "\n" (infoParts ++ ["\n=== Commit Result ===", "Git error: " ++ r.stderr]) }
    | .error e =>
        .ok { result := String.intercalate "\n" (infoParts ++ ["\n=== Commit Result ===", "Error running git commit: " ++ e.msg]) }

/-- The dispatcher body of `execute_tool`: the if/elif chain over tool
names, with the final `Unknown tool` default (tools.py lines
555-1332). -/
def runToolBody (env : ToolEnv) (toolName : String) (args : ToolArgs) : Except PyExc ToolOutcome :=
  if toolName = "get_working_directory" then toolGetWorkingDirectory env
  else if toolName = "list_directory" then toolListDirectory env args
  else if toolName = "find_in_file" then toolFindInFile env args
  else if toolName = "find_file_in_project" then toolFindFileInProject env args
  else if toolName = "read_file" then toolReadFile env args
  else if toolName = "create_file" then toolCreateFile env args
  else if toolName = "open_file" then toolOpenFile env args
  else if toolName = "edit_file" then toolEditFile env args
  else if toolName = "edit_file_lines" then toolEditFileLines env args
  else if toolName = "git_status" then toolGitStatus env
  else if toolName = "git_diff" then toolGitDiff env args
  else if toolName = "git_log" then toolGitLog env args
  else if toolName = "git_show" then toolGitShow env args
  else if toolName = "git_branch" then toolGitBranch env args
  else if toolName = "git_add" then toolGitAdd env args
  else if toolName = "git_reset" then toolGitReset env args
  else if toolName = "git_commit" then toolGitCommit env args
  else .ok { result := "Unknown tool: " ++ toolName }

/-- tools.py `execute_tool`: the approval gate runs first and a refusal
short-circuits to a blocked-message string; then the dispatcher body
runs under the outer handlers, which turn an escaped
`subprocess.TimeoutExpired` into the timed-out string and any other
escaped exception into a generic error string.  The model is a total
function into strings: nothing propagates to the caller. -/
def execute_tool (env : ToolEnv) (cache : ApprovalCache) (toolName : String)
    (args : ToolArgs) : ToolOutcome × ApprovalCache :=
  let ar := check_tool_approval env.requireApproval cache toolName env.approvalPrompt
  if !ar.approved then
    ({ result := "Tool execution blocked: " ++ ar.msg.getD "None" }, ar.cache)
  else
    match runToolBody env toolName args with
    | .ok o => (o, ar.cache)
    | .error (.timeoutExpired _) =>
        ({ result := "Tool execution timed out: " ++ toolName }, ar.cache)
    | .error e =>
        ({ result := "Error executing tool " ++ toolName ++ ": " ++ e.msg }, ar.cache)

/-! ## generate_conversation_summary (summary.py lines 88-292) -/

/-- The summary file as written by summary.py lines 277-285: a
timestamp comment, the cutoff_byte metadata comment, then the stripped
LLM output. -/
structure SummaryFile where
  timestamp : String
  cutoffByte : Int
  body : String
deriving Repr, DecidableEq

/-- Renders the written file exactly as `metadata + summary_content.strip()`. -/
def renderSummaryFile (sf : SummaryFile) : String :=
  "<!-- Summary generated at: " ++ sf.timestamp ++ " -->\n<!-- cutoff_byte: " ++
    toString sf.cutoffByte ++ " -->\n\n" ++ sf.body

/-- The environment one run of the summarizer observes.
`oldCutoffRecorded` is `get_summary_cutoff(project_dir)` (0 when no
summary or no parsable metadata exists); `historyReadOutcome` is the
decoded text of the byte range read; `extractedPlan` is the result of
`extract_plan_from_conversation` on that text (the plan regex is
abstracted as this oracle); `llmStream` lists the `(content,
finish_reason)` events of the provider call. -/
structure SummaryEnv where
  historyExists : Bool
  historySize : Int
  recentWindow : Int
  oldCutoffRecorded : Int
  oldSummaryRead : Except PyExc String
  historyReadOutcome : Except PyExc String
  planFileExists : Bool
  extractedPlan : Option String
  providerFails : Option String
  createMessagesFails : Option String
  llmStream : List (String × String)
  llmStreamFails : Option String
  writeFails : Bool
  timestamp : String

/-- What a summarizer run left behind: the file written (if it got that
far) and the plan handed to `save_plan` (if extraction ran and found
one). -/
structure SummaryRun where
  written : Option SummaryFile := none
  planSaved : Option String := none
deriving Repr, DecidableEq

/-- summary.py lines 257-265: accumulate streamed content, stopping
after the first chunk carrying a nonempty finish reason (that chunk's
content is still taken). -/
def collectSummaryContent : List (String × String) → String
  | [] => ""
  | (c, fr) :: rest => c ++ (if fr ≠ "" then "" else collectSummaryContent rest)

/-- summary.py `generate_conversation_summary`.  No history file: no
run.  Otherwise `new_cutoff = max(0, history_size - recent_window)`;
the backlog beyond 200KB only moves the read window (`old_cutoff`),
not the new cutoff.  A history-read failure, provider or
message-building failure, stream failure, empty LLM output or write
failure all end the run without a write; plan extraction happens right
after the read when no plan.md exists yet.  A successful run writes
the metadata header carrying `new_cutoff` followed by the stripped
summary text. -/
def generate_conversation_summary (env : SummaryEnv) : SummaryRun :=
  if !env.historyExists then {}
  else
    let newCutoff := pyMax0 (env.historySize - env.recentWindow)
    let bytesToSummarize0 := newCutoff - env.oldCutoffRecorded
    let _bytesToSummarize :=
      if 204800 < bytesToSummarize0 then (204800 : Int) else bytesToSummarize0
    match env.historyReadOutcome with
    | .error _ => {}
    | .ok _conversation =>
        let planSaved := if !env.planFileExists then env.extractedPlan else none
        match env.providerFails with
        | some _ => { planSaved := planSaved }
        | none =>
            match env.createMessagesFails with
            | some _ => { planSaved := planSaved }
            | none =>
                match env.llmStreamFails with
                | some _ => { planSaved := planSaved }
                | none =>
                    let summaryContent := collectSummaryContent env.llmStream
                    if summaryContent = "" then { planSaved := planSaved }
                    else if env.writeFails then { planSaved := planSaved }
                    else
                      let sf : SummaryFile :=
                        { timestamp := env.timestamp, cutoffByte := newCutoff, body := pyStrip summaryContent }
                      { written := some sf, planSaved := planSaved }

/-! ## Bounded history loading (core.py lines 217-258)

`parsed_messages` is the list of role-tagged messages parsed from the
history tail, in reverse chronological order (newest first), exactly
as the source holds it after its `reverse()`. -/

/-- A parsed role-tagged history message. -/
structure HistMsg where
  role : String
  content : String
deriving Repr, DecidableEq

/-- `len(msg['content'])`, the character-count token estimate the
source uses. -/
def histLen (m : HistMsg) : Int :=
  (m.content.length : Int)

/-- core.py lines 253-258: walk the older messages (newest first),
subtract each length from the running budget, and insert the message
at the front of the chronological history while the budget stays
positive; stop at the first message that drives it to zero or below. -/
def greedyInclude : Int → List HistMsg → List HistMsg → List HistMsg
  | _, hist, [] => hist
  | budget, hist, m :: rest =>
      let b := budget - histLen m
      if 0 < b then greedyInclude b (m :: hist) rest else hist

/-- core.py lines 231-258: always keep the newest 4 messages (in
chronological order), then greedily extend with older ones under the
budget `modelLimit - maxTokens - len(prompt) - len(systemMessage)`
passed here as `budget0`.  With fewer than 4 parsed messages, all of
them are kept. -/
def boundHistory (parsed : List HistMsg) (budget0 : Int) : List HistMsg :=
  if 4 ≤ parsed.length then
    let recent := (parsed.take 4).reverse
    let remaining := parsed.drop 4
    let budget := budget0 - ((parsed.take 4).map histLen).sum
    greedyInclude budget recent remaining
  else parsed.reverse

/-- Specification-side counter: how many of the older messages the
greedy walk includes, given the running budget and their lengths. -/
def includeCount : Int → List Int → Nat
  | _, [] => 0
  | budget, l :: rest => if 0 < budget - l then includeCount (budget - l) rest + 1 else 0

/-! ## The orchestrator's per-iteration step (core.py lines 300-596)

One iteration of the `while tool_iteration < max_tool_iterations`
loop, from the point where the stream has been consumed: the
accumulated content and the batch of tool calls are the input.  User
interactions (plan approval, revision text, revised-plan approval) are
part of the input record; display calls are not modelled.  The
iteration either continues the loop with a new state, breaks (ending
the turn), or raises into the turn's outer handler. -/

/-- A tool call as the orchestrator receives it from the provider
stream; the argument mapping is carried as its serialized text. -/
structure OToolCall where
  id : String
  name : String
  argsText : String
deriving Repr, DecidableEq

/-- Message-list entries, covering the provider shapes the loop
appends: plain role/content dicts, the Anthropic assistant message of
text plus tool_use blocks, the OpenAI assistant tool-call message
(content None), the OpenAI tool-role result message, and the Anthropic
user message of tool_result blocks. -/
inductive OMsg where
  | plain (role content : String)
  | assistantToolUse (text : Option String) (calls : List OToolCall)
  | assistantToolCall (call : OToolCall)
  | toolResult (callId result : String)
  | toolResults (results : List (String × String))
deriving Repr, DecidableEq

/-- The provider wire shapes the loop branches on (`provider_name`
comparisons combined with the isinstance checks). -/
inductive ProviderKind where
  | openaiKind
  | anthropicKind
  | otherKind
deriving Repr, DecidableEq

/-- Configuration fixed for the whole turn. -/
structure OrchConfig where
  requirePlanApproval : Bool
  suppressDisplay : Bool
  provider : ProviderKind
  runTool : OToolCall → String

/-- The loop's mutable state (core.py lines 293-298). -/
structure OrchState where
  toolIteration : Nat
  planApproved : Bool
  inPlanningPhase : Bool
  planLoopCount : Nat
  messages : List OMsg
deriving Repr, DecidableEq

/-- One iteration's input: the streamed text, the tool calls captured
at the finish event (empty list when none were produced), and the
user's answers should the iteration prompt for them. -/
structure TurnInput where
  content : String
  toolCalls : List OToolCall
  approvalAnswer : String
  revisionText : String
  revisedPlanAnswer : String
deriving Repr, DecidableEq

/-- How an iteration ended the turn. -/
inductive EndKind where
  | planLoopError
  | markerWithoutSteps
  | ordinaryAnswer
  | planCancelled
  | revisedPlanCancelled
deriving Repr, DecidableEq

/-- An iteration's outcome: continue the while loop, break out of it,
or raise into the turn's outer exception handler. -/
inductive StepResult where
  | next (s : OrchState)
  | finished (k : EndKind)
  | raised (msg : String)
deriving Repr, DecidableEq

/-- Observable side effects of one iteration. -/
structure StepEffects where
  planApprovalPrompted : Bool := false
  planSaved : Option String := none
  toolsExecuted : List OToolCall := []
deriving Repr, DecidableEq

/-- The revision request injected at core.py lines 400-410. -/
def revisionRequestText (feedback : String) : String :=
  "Please present a REVISED PLAN based on this feedback: " ++ feedback ++
    "\n\nMark it clearly with '= REVISED PLAN' at the top."

/-- The execution directive injected on approval (core.py line 425). -/
def approvalInstructionText : String :=
  "Plan approved. Execute step 1 now.\n\nCRITICAL INSTRUCTIONS:\n- Your response must contain ONLY the tool/function call for step 1\n- Do NOT write ANY text content in your response\n- Do NOT output headers like 'Tool Execution' or '======' or 'Step 1:'\n- The system will automatically display the tool execution progress\n- Just make the actual API function call and nothing else\n- After the tool completes, you'll see the results and can proceed to the next step"

/-- core.py lines 487-596: the tool-execution section.  The iteration
counter advances, the Anthropic shape first appends the assistant
message with all tool_use blocks, the plan-loop counter is reset
because tools are executing, each tool runs in order, and the results
are folded back in the provider's shape (OpenAI: assistant tool-call
message plus tool-role message per call; Anthropic: one user message
with all tool_result blocks; other providers append nothing). -/
def execToolsStep (cfg : OrchConfig) (s : OrchState) (inp : TurnInput)
    (tcs : List OToolCall) : StepResult × StepEffects :=
  let messages1 :=
    if cfg.provider = .anthropicKind then
      s.messages ++ [.assistantToolUse
        (if pyStrip inp.content ≠ "" then some inp.content else none) tcs]
    else s.messages
  let results := tcs.map (fun tc => (tc, cfg.runTool tc))
  let messages2 :=
    if cfg.provider = .openaiKind then
      results.foldl (fun acc r => acc ++ [.assistantToolCall r.1, .toolResult r.1.id r.2]) messages1
    else if cfg.provider = .anthropicKind then
      messages1 ++ [.toolResults (results.map (fun r => (r.1.id, r.2)))]
    else messages1
  let sNext : OrchState :=
    { s with toolIteration := s.toolIteration + 1, planLoopCount := 0, messages := messages2 }
  (.next sNext, { toolsExecuted := tcs })

/-- One iteration of the orchestrator loop (core.py lines 300-596),
starting after the stream was consumed.  With no tool calls: the
plan-marker branch applies when `GOAL:` and `PLAN:` both occur,
approval is required and the planning phase is active; the consecutive
presentation counter increments and a third consecutive presentation
breaks with the loop-detected error before anything else; a marker
match without a numbered step breaks as an ordinary answer; otherwise
the plan is appended to the messages and, when display is not
suppressed, the user decides (no cancels; revise leaves planning
phase and injects the revision request; anything else approves,
persists the plan and injects the execution directive).  With display
suppressed the approval block is skipped and control falls into the
tool-execution section where iterating over the absent batch raises
`TypeError`.  Without the plan branch the turn ends normally.  With
tool calls: a revised-plan marker outside the planning phase first
asks for confirmation (cancel breaks), then the batch executes. -/
def orchStep (cfg : OrchConfig) (s : OrchState) (inp : TurnInput) : StepResult × StepEffects :=
  if inp.toolCalls.isEmpty then
    let hasTextMarkers := strContains inp.content "GOAL:" && strContains inp.content "PLAN:"
    if hasTextMarkers && cfg.requirePlanApproval && s.inPlanningPhase then
      let planLoopCount := s.planLoopCount + 1
      if 2 < planLoopCount then (.finished .planLoopError, {})
      else if !hasNumberedStep inp.content then (.finished .markerWithoutSteps, {})
      else
        let messages1 := s.messages ++ [.plain "assistant" inp.content]
        if !cfg.suppressDisplay then
          let a := pyToLower inp.approvalAnswer
          if a = "n" || a = "no" then (.finished .planCancelled, { planApprovalPrompted := true })
          else if a = "r" || a = "revise" then
            let sNext : OrchState :=
              { s with planLoopCount := planLoopCount, inPlanningPhase := false,
                       messages := messages1 ++ [.plain "user" (revisionRequestText inp.revisionText)] }
            (.next sNext, { planApprovalPrompted := true })
          else
            let sNext : OrchState :=
              { s with planLoopCount := planLoopCount, planApproved := true, inPlanningPhase := false,
                       messages := messages1 ++ [.plain "user" approvalInstructionText] }
            (.next sNext, { planApprovalPrompted := true, planSaved := some inp.content })
        else
          (.raised "TypeError: NoneType object is not iterable", {})
    else (.finished .ordinaryAnswer, {})
  else
    let isRevisedPlan :=
      strContains inp.content "= REVISED PLAN" ||
      strContains inp.content "=== REVISED PLAN ===" ||
      (strContains inp.content "REVISED PLAN" && !s.inPlanningPhase)
    if isRevisedPlan && cfg.requirePlanApproval && !cfg.suppressDisplay && !s.inPlanningPhase then
      let a := pyToLower inp.revisedPlanAnswer
      if !(a = "y" || a = "yes") then (.finished .revisedPlanCancelled, {})
      else execToolsStep cfg s inp inp.toolCalls
    else execToolsStep cfg s inp inp.toolCalls

/-- The loop state at turn start (core.py lines 293-298):
`plan_approved = not require_plan_approval`, planning phase active
exactly when approval is required, counters at zero, and the messages
`provider.create_messages` produced. -/
def initOrchState (cfg : OrchConfig) (msgs : List OMsg) : OrchState :=
  { toolIteration := 0, planApproved := !cfg.requirePlanApproval,
    inPlanningPhase := cfg.requirePlanApproval, planLoopCount := 0, messages := msgs }

/-- States the turn loop can actually be in: the initial state, and
anything an iteration (entered under the `tool_iteration < 25` guard)
continues to. -/
inductive OrchReachable (cfg : OrchConfig) : OrchState → Prop where
  | init (msgs : List OMsg) : OrchReachable cfg (initOrchState cfg msgs)
  | step {s s' : OrchState} (inp : TurnInput) (eff : StepEffects) :
      OrchReachable cfg s → s.toolIteration < 25 →
      orchStep cfg s inp = (.next s', eff) → OrchReachable cfg s'

/-! ## The OpenAI stream parser (providers.py lines 152-215)

The SSE and JSON framing is abstracted: the input is the list of
successfully json-parsed data chunks, each with its content delta,
finish reason and tool-call fragments.  Argument parsing
(`json.loads` on the accumulated text) is a parameter, so every
statement below holds for the actual JSON grammar. -/

/-- One entry of a chunk's `delta.tool_calls` array: the positional
index plus whichever of id, function name and argument fragment are
present. -/
structure ToolCallChunk where
  index : Nat
  idPart : Option String
  namePart : Option String
  argsPart : Option String
deriving Repr, DecidableEq

/-- One parsed stream chunk (the first choice's delta and finish
reason). -/
structure SseChunk where
  content : String
  finishReason : String
  toolCallChunks : List ToolCallChunk
deriving Repr, DecidableEq

/-- A tool call being accumulated across chunks (providers.py lines
179-193). -/
structure ToolAcc where
  id : String
  name : String
  arguments : String
deriving Repr, DecidableEq

/-- Merge one fragment into an accumulator entry: id and name are
replaced when present, argument text is appended. -/
def mergeChunk (acc : ToolAcc) (c : ToolCallChunk) : ToolAcc :=
  { id := c.idPart.getD acc.id,
    name := c.namePart.getD acc.name,
    arguments := acc.arguments ++ c.argsPart.getD "" }

/-- The accumulator dict keyed by index, in insertion order (Python
dicts preserve it): merge into an existing entry or append a fresh
one. -/
def updateAccum (a : List (Nat × ToolAcc)) (c : ToolCallChunk) : List (Nat × ToolAcc) :=
  if (a.lookup c.index).isSome then
    a.map (fun p => if p.1 = c.index then (p.1, mergeChunk p.2 c) else p)
  else a ++ [(c.index, mergeChunk { id := "", name := "", arguments := "" } c)]

/-- One normalized stream event `(content, finish_reason, tool_calls)`;
a parsed tool call is `(id, name, arguments)`. -/
abbrev StreamEvent (α : Type) := String × String × Option (List (String × String × α))

/-- providers.py lines 200-212: at a finish event, turn the accumulator
into the yielded tool-call list; entries whose accumulated text fails
to parse are skipped (`except json.JSONDecodeError: pass`), and with
an empty accumulator the event carries no list at all. -/
def finalizeToolCalls {α : Type} (parse : String → Option α)
    (a : List (Nat × ToolAcc)) : Option (List (String × String × α)) :=
  if a.isEmpty then none
  else some (a.filterMap (fun p => (parse p.2.arguments).map (fun x => (p.2.id, p.2.name, x))))

/-- The chunk loop of `OpenAIProvider.stream_chat` (providers.py lines
155-215): per chunk, first fold the tool-call fragments into the
accumulator, then yield the content delta (when nonempty) and then the
finish event (when a finish reason arrived) carrying the finalized
tool calls. -/
def openaiStream {α : Type} (parse : String → Option α) :
    List (Nat × ToolAcc) → List SseChunk → List (StreamEvent α)
  | _, [] => []
  | acc, ch :: rest =>
      let accNext := ch.toolCallChunks.foldl updateAccum acc
      ((if ch.content ≠ "" then [(ch.content, "", (none : Option (List (String × String × α))))] else []) ++
       (if ch.finishReason ≠ "" then [("", ch.finishReason, finalizeToolCalls parse accNext)] else [])) ++
      openaiStream parse accNext rest

/-- The accumulator state after a run of chunks (the fold the chunk
loop performs on `tool_calls_accumulator`). -/
def accumulateChunks (acc : List (Nat × ToolAcc)) (cs : List SseChunk) : List (Nat × ToolAcc) :=
  cs.foldl (fun a ch => ch.toolCallChunks.foldl updateAccum a) acc

/-! ## Concrete environments for closed evaluations -/

/-- The names `execute_tool` dispatches on (tools.py lines 556-1332). -/
def knownToolNames : List String :=
  ["get_working_directory", "list_directory", "find_in_file", "find_file_in_project",
   "read_file", "create_file", "open_file", "edit_file", "edit_file_lines",
   "git_status", "git_diff", "git_log", "git_show", "git_branch", "git_add",
   "git_reset", "git_commit"]

/-- A small concrete path world: project root `/home/user/proj`; the
relative path `../secret.txt` resolves one level above it. -/
def samplePathEnv : PathEnv where
  cwd := "/home/user/proj"
  realpathOf := fun p =>
    if p = "../secret.txt" then "/home/user/secret.txt" else "/home/user/proj/" ++ p
  normParts := fun p => pySplitOn p "/"
  withinProject := fun rp => pyStartsWith rp "/home/user/proj/"
  confirmOutsideProject := fun _ => .no

/-- A concrete tool environment over `samplePathEnv`: approval checking
disabled, `../secret.txt` existing and readable, every subprocess
failing, Vim calm. -/
def sampleToolEnv : ToolEnv where
  pathEnv := samplePathEnv
  requireApproval := "0"
  approvalPrompt := .emptyResult
  getcwd := .ok "/home/user/proj"
  abspath := fun p => "/home/user/proj/" ++ p
  pathExists := fun p => p = "../secret.txt"
  isDir := fun _ => false
  isFile := fun p => p = "../secret.txt"
  listDir := fun _ => .error (.otherError "not listable")
  fileSize := fun _ => .ok 9
  fmtSize := fun n => toString n ++ " bytes"
  readLines := fun p =>
    if p = "../secret.txt" then .ok ["p4ssw0rd\n"] else .error (.fileNotFound "missing")
  readWhole := fun _ => .error (.fileNotFound "missing")
  writeOutcome := fun _ => none
  makeDirs := fun _ => none
  run := fun _ => .error (.otherError "no subprocess")
  vimEval := fun _ => .ok "-1"
  vimCommandOutcome := fun _ => none
  recentHistoryWindow := 30480
  today := "2026-10-12"

/-- `sampleToolEnv` with every subprocess timing out. -/
def gitTimeoutEnv : ToolEnv :=
  { sampleToolEnv with
    run := fun _ => .error (.timeoutExpired "Command git status timed out after 10 seconds") }

/-- A tool environment for exercising the `create_file` branch: the
whole world is inside the project, the sibling
`proj/.vim-chatgpt/history.txt` exists with 50000 bytes, and no target
file exists yet. -/
def createFileEnv : ToolEnv :=
  { sampleToolEnv with
    pathEnv :=
      { cwd := "/home/user/proj",
        realpathOf := fun p => "/home/user/proj/" ++ p,
        normParts := fun p => pySplitOn p "/",
        withinProject := fun _ => true,
        confirmOutsideProject := fun _ => .no },
    pathExists := fun p => p = "proj/.vim-chatgpt" || p = "proj/.vim-chatgpt/history.txt" || p = "proj",
    fileSize := fun p => if p = "proj/.vim-chatgpt/history.txt" then .ok 50000 else .ok 0 }

/-- `samplePathEnv` with identity path resolution, for exercising the
blocked-prefix and outside-project verdicts on absolute paths. -/
def idPathEnv : PathEnv :=
  { samplePathEnv with realpathOf := fun p => p, withinProject := fun rp => pyStartsWith rp "/home/user/proj/" }

/-- A summarizer environment: 100-byte history, 30-byte recent window,
nothing recorded yet, the model answering one chunk. -/
def summaryRunEnv1 : SummaryEnv where
  historyExists := true
  historySize := 100
  recentWindow := 30
  oldCutoffRecorded := 0
  oldSummaryRead := .ok ""
  historyReadOutcome := .ok "old conversation"
  planFileExists := true
  extractedPlan := none
  providerFails := none
  createMessagesFails := none
  llmStream := [("Summary text.", "stop")]
  llmStreamFails := none
  writeFails := false
  timestamp := "2026-10-12 10:00:00"

/-- The follow-up run after `summaryRunEnv1` recorded cutoff 70, with
the configured recent window enlarged to 200 bytes and the history
unchanged. -/
def summaryRunEnv2 : SummaryEnv :=
  { summaryRunEnv1 with recentWindow := 200, oldCutoffRecorded := 70, timestamp := "2026-10-12 11:00:00" }

/-- A follow-up run with the same window and a grown history file. -/
def summaryRunEnv3 : SummaryEnv :=
  { summaryRunEnv1 with historySize := 150, oldCutoffRecorded := 70, timestamp := "2026-10-12 12:00:00" }

/-- The file `summaryRunEnv1` writes. -/
def summarySf1 : SummaryFile where
  timestamp := "2026-10-12 10:00:00"
  cutoffByte := 70
  body := "Summary text."

/-- The file `summaryRunEnv3` writes. -/
def summarySf3 : SummaryFile where
  timestamp := "2026-10-12 12:00:00"
  cutoffByte := 120
  body := "Summary text."

/-- An orchestrator configuration requiring plan approval, display on,
OpenAI shape, tools always answering "ok". -/
def sampleOrchCfg : OrchConfig where
  requirePlanApproval := true
  suppressDisplay := false
  provider := .openaiKind
  runTool := fun _ => "ok"

/-- A plan presentation with markers but no numbered step. -/
def planNoStepsInput : TurnInput where
  content := "GOAL: tidy the project\n\nPLAN: reorganize things later"
  toolCalls := []
  approvalAnswer := ""
  revisionText := ""
  revisedPlanAnswer := ""

/-- A plan presentation with markers, arriving with two consecutive
presentations already counted. -/
def planThirdTimeInput : TurnInput where
  content := "GOAL: tidy the project\n\nPLAN:\n1. list files (list_directory)"
  toolCalls := []
  approvalAnswer := ""
  revisionText := ""
  revisedPlanAnswer := ""

/-- The loop state after two consecutive plan presentations with no
tool execution in between. -/
def twoPresentationsState : OrchState where
  toolIteration := 0
  planApproved := false
  inPlanningPhase := true
  planLoopCount := 2
  messages := []

/-- An input carrying one tool call and no plan text. -/
def oneToolCallInput : TurnInput where
  content := ""
  toolCalls := [{ id := "call_1", name := "git_status", argsText := "{}" }]
  approvalAnswer := ""
  revisionText := ""
  revisedPlanAnswer := ""

/-- Five parsed history messages, newest first. -/
def sampleParsedHistory : List HistMsg :=
  [{ role := "assistant", content := "fifth" },
   { role := "user", content := "fourth" },
   { role := "assistant", content := "third" },
   { role := "user", content := "second" },
   { role := "assistant", content := "first" }]

/-- A stream transcript for the OpenAI parser: one fragment chunk
opening two tool calls, one fragment chunk finishing their argument
texts, then the finish chunk.  Index 0 accumulates valid argument
text, index 1 malformed text. -/
def sseFragmentChunk1 : SseChunk where
  content := "thinking"
  finishReason := ""
  toolCallChunks :=
    [{ index := 0, idPart := some "call_a", namePart := some "git_status", argsPart := some "\x7b" },
     { index := 1, idPart := some "call_b", namePart := some "read_file", argsPart := some "\x7b\x22oops" }]

/-- Second fragment chunk: completes index 0, leaves index 1 broken. -/
def sseFragmentChunk2 : SseChunk where
  content := ""
  finishReason := ""
  toolCallChunks :=
    [{ index := 0, idPart := none, namePart := none, argsPart := some "\x7d" }]

/-- The finish chunk. -/
def sseFinishChunk : SseChunk where
  content := ""
  finishReason := "tool_calls"
  toolCallChunks := []

/-- A toy argument parser standing in for `json.loads` in closed
evaluations: only the exact text of an empty JSON object parses. -/
def sampleArgParse (s : String) : Option (List (String × String)) :=
  if s = "{}" then some [] else none

/-- Arguments for the summary-file witness of the `create_file` branch. -/
def c10SummaryArgs : ToolArgs :=
  { file_path := some "proj/.vim-chatgpt/summary.md", content := some "New summary." }

/-- Arguments for the verbatim-write witness of the `create_file` branch. -/
def c10NotesArgs : ToolArgs :=
  { file_path := some "proj/notes.md", content := some "Plain notes." }

/-! ## Theorems -/

/-- C8: the approval cache obeys the decision-lifetime invariant.  With
approval checking enabled: a recorded `denied` makes every subsequent
check of that name refuse without prompting and without touching the
cache; any other recorded status (the source stores `always`) makes
every subsequent check approve without prompting; an allow-once answer
approves but leaves the cache unchanged, so the same name prompts
again next time; a deny answer records `denied` and an always answer
records `always`. -/
theorem claim_C8 :
    (∀ (cfg : String) (cache : ApprovalCache) (name : String) (prompt : PromptOutcome),
      cfg ≠ "0" → cache.lookup name = some "denied" →
      check_tool_approval cfg cache name prompt =
        { approved := false, msg := some ("Tool '" ++ name ++ "' was denied by user"),
          cache := cache, prompted := false }) ∧
    (∀ (cfg : String) (cache : ApprovalCache) (name st : String) (prompt : PromptOutcome),
      cfg ≠ "0" → cache.lookup name = some st → st ≠ "denied" →
      check_tool_approval cfg cache name prompt =
        { approved := true, msg := none, cache := cache, prompted := false }) ∧
    (∀ (cfg : String) (cache : ApprovalCache) (name : String),
      cfg ≠ "0" → cache.lookup name = none →
      check_tool_approval cfg cache name (.choice 1) =
        { approved := true, msg := none, cache := cache, prompted := true }) ∧
    (∀ (cfg : String) (cache : ApprovalCache) (name : String),
      cfg ≠ "0" → cache.lookup name = none →
      (check_tool_approval cfg cache name (.choice 3)).approved = false ∧
      (check_tool_approval cfg cache name (.choice 3)).cache.lookup name = some "denied") ∧
    (∀ (cfg : String) (cache : ApprovalCache) (name : String),
      cfg ≠ "0" → cache.lookup name = none →
      (check_tool_approval cfg cache name (.choice 2)).approved = true ∧
      (check_tool_approval cfg cache name (.choice 2)).cache.lookup name = some "always") := by
  refine ⟨?_, ?_, ?_, ?_, ?_⟩
  · intro cfg cache name prompt hcfg hden
    simp [check_tool_approval, hcfg, hden]
  · intro cfg cache name st prompt hcfg hst hne
    simp [check_tool_approval, hcfg, hst, hne]
  · intro cfg cache name hcfg hnone
    simp [check_tool_approval, hcfg, hnone]
  · intro cfg cache name hcfg hnone
    simp [check_tool_approval, hcfg, hnone, List.lookup]
  · intro cfg cache name hcfg hnone
    simp [check_tool_approval, hcfg, hnone, List.lookup]

/-- Witness for C8 at concrete inputs: a cached denial for
`git_commit` refuses without prompting; a fresh `read_file` with an
allow-once answer approves and leaves the cache empty; a fresh deny
answer records `denied`. -/
theorem claim_C8_witness :
    check_tool_approval "1" [("git_commit", "denied")] "git_commit" (.choice 1) =
      { approved := false, msg := some "Tool 'git_commit' was denied by user",
        cache := [("git_commit", "denied")], prompted := false } ∧
    check_tool_approval "1" [] "read_file" (.choice 1) =
      { approved := true, msg := none, cache := [], prompted := true } ∧
    (check_tool_approval "1" [] "git_commit" (.choice 3)).approved = false ∧
    (check_tool_approval "1" [] "git_commit" (.choice 3)).cache.lookup "git_commit" = some "denied" :=
  ⟨claim_C8.1 "1" [("git_commit", "denied")] "git_commit" (.choice 1) (by decide) (by decide),
   claim_C8.2.2.1 "1" [] "read_file" (by decide) (by decide),
   claim_C8.2.2.2.1 "1" [] "git_commit" (by decide) (by decide)⟩

/-- The cutoff a successful summarizer run writes is determined by the
history size and the recent window alone. -/
lemma pyMax0_eq_max (x : Int) : pyMax0 x = max 0 x := by
  unfold pyMax0
  omega

lemma summary_written_cutoff (env : SummaryEnv) (sf : SummaryFile)
    (h : (generate_conversation_summary env).written = some sf) :
    sf.cutoffByte = pyMax0 (env.historySize - env.recentWindow) := by
  unfold generate_conversation_summary at h
  repeat' split at h
  all_goals simp only [apply_ite SummaryRun.written] at h
  all_goals try split at h
  all_goals try (cases h; rfl)
  all_goals simp_all

/-- C5: whenever the summarizer writes a summary, its `cutoff_byte`
metadata is exactly `max 0 (historySize - recentWindow)`, and the
rendered file embeds that value in the metadata comment. -/
theorem claim_C5 (env : SummaryEnv) (sf : SummaryFile)
    (h : (generate_conversation_summary env).written = some sf) :
    sf.cutoffByte = max 0 (env.historySize - env.recentWindow) ∧
    renderSummaryFile sf = "<!-- Summary generated at: " ++ sf.timestamp ++
      " -->\n<!-- cutoff_byte: " ++ toString (max 0 (env.historySize - env.recentWindow)) ++
      " -->\n\n" ++ sf.body := by
  have hc := summary_written_cutoff env sf h
  rw [pyMax0_eq_max] at hc
  exact ⟨hc, by rw [renderSummaryFile, hc]⟩

/-- Witness for C5: the 100-byte history with a 30-byte window writes
cutoff 70. -/
theorem claim_C5_witness :
    summarySf1.cutoffByte = max 0 (summaryRunEnv1.historySize - summaryRunEnv1.recentWindow) ∧
    renderSummaryFile summarySf1 = "<!-- Summary generated at: " ++ summarySf1.timestamp ++
      " -->\n<!-- cutoff_byte: " ++
      toString (max 0 (summaryRunEnv1.historySize - summaryRunEnv1.recentWindow)) ++
      " -->\n\n" ++ summarySf1.body :=
  claim_C5 summaryRunEnv1 summarySf1 (by decide)

/-- C6 counterexample: the claim fails as stated.  A run over a
100-byte history with a 30-byte window records cutoff 70; a later run
over the same history with the recent window reconfigured to 200
bytes writes cutoff 0, strictly below the previously recorded 70 —
the source never clamps the new cutoff against the old one. -/
theorem claim_C6_counterexample :
    (generate_conversation_summary summaryRunEnv1).written.map SummaryFile.cutoffByte = some 70 ∧
    summaryRunEnv2.oldCutoffRecorded = 70 ∧
    summaryRunEnv2.historySize = summaryRunEnv1.historySize ∧
    (generate_conversation_summary summaryRunEnv2).written.map SummaryFile.cutoffByte = some 0 ∧
    ¬ (70 : Int) ≤ 0 := by
  decide

/-- C6 (amended): across successive runs the recorded cutoff is
non-decreasing provided the history file has not shrunk and the
configured recent window has not grown between the runs. -/
theorem claim_C6 (e1 e2 : SummaryEnv) (s1 s2 : SummaryFile)
    (h1 : (generate_conversation_summary e1).written = some s1)
    (h2 : (generate_conversation_summary e2).written = some s2)
    (hH : e1.historySize ≤ e2.historySize)
    (hW : e2.recentWindow ≤ e1.recentWindow) :
    s1.cutoffByte ≤ s2.cutoffByte := by
  rw [summary_written_cutoff e1 s1 h1, summary_written_cutoff e2 s2 h2]
  unfold pyMax0
  split
  all_goals split
  all_goals omega

/-- Witness for the amended C6: a later run over a grown history with
the same window records a larger cutoff (70 then 120). -/
theorem claim_C6_witness : summarySf1.cutoffByte ≤ summarySf3.cutoffByte :=
  claim_C6 summaryRunEnv1 summaryRunEnv3 summarySf1 summarySf3
    (by decide) (by decide) (by decide) (by decide)

/-- The greedy walk keeps exactly the first `includeCount` older
messages, prepended in chronological order. -/
lemma greedyInclude_eq (rest : List HistMsg) :
    ∀ (budget : Int) (hist : List HistMsg),
      greedyInclude budget hist rest =
        (rest.take (includeCount budget (rest.map histLen))).reverse ++ hist := by
  induction rest with
  | nil => intro budget hist; simp [greedyInclude, includeCount]
  | cons m rest ih =>
      intro budget hist
      simp only [greedyInclude, includeCount, List.map_cons]
      by_cases h : 0 < budget - histLen m
      · rw [if_pos h, if_pos h, ih]
        simp [List.take_succ_cons]
      · rw [if_neg h, if_neg h]
        simp

/-- All included older messages kept the running budget positive. -/
lemma includeCount_pos (ls : List Int) :
    ∀ (b : Int) (j : Nat), j < includeCount b ls → 0 < b - ((ls.take (j + 1)).sum) := by
  induction ls with
  | nil => intro b j hj; simp [includeCount] at hj
  | cons l rest ih =>
      intro b j hj
      simp only [includeCount] at hj
      by_cases h : 0 < b - l
      · rw [if_pos h] at hj
        cases j with
        | zero => simpa using h
        | succ j =>
            have := ih (b - l) j (by omega)
            simp only [List.take_succ_cons, List.sum_cons]
            omega
      · rw [if_neg h] at hj
        omega

/-- The walk stopped at the first older message that would drive the
running budget to zero or below. -/
lemma includeCount_stop (ls : List Int) :
    ∀ b : Int, includeCount b ls < ls.length →
      b - ((ls.take (includeCount b ls + 1)).sum) ≤ 0 := by
  induction ls with
  | nil => intro b h; simp at h
  | cons l rest ih =>
      intro b h
      simp only [includeCount] at h ⊢
      by_cases hb : 0 < b - l
      · rw [if_pos hb] at h ⊢
        have := ih (b - l) (by simpa using h)
        simp only [List.take_succ_cons, List.sum_cons]
        omega
      · rw [if_neg hb] at h ⊢
        simp only [List.take_succ_cons, List.take_zero, List.sum_cons, List.sum_nil]
        omega

/-- C7: with at least 4 parsed messages the bounded history is the 4
newest messages in chronological order, preceded by the first `k`
older messages (again chronologically) where `k` is determined by the
greedy budget walk; every included older message kept the running
budget positive, and if the walk stopped early the next older message
would have driven the budget to zero or below.  The budget only
affects the older messages: the 4 newest are present for every
`budget0`. -/
theorem claim_C7 (parsed : List HistMsg) (budget0 : Int) (h4 : 4 ≤ parsed.length) :
    let afterRecent := budget0 - ((parsed.take 4).map histLen).sum
    let lens := (parsed.drop 4).map histLen
    let k := includeCount afterRecent lens
    boundHistory parsed budget0 =
      ((parsed.drop 4).take k).reverse ++ (parsed.take 4).reverse ∧
    (∀ j, j < k → 0 < afterRecent - ((lens.take (j + 1)).sum)) ∧
    (k < (parsed.drop 4).length → afterRecent - ((lens.take (k + 1)).sum) ≤ 0) := by
  intro afterRecent lens k
  refine ⟨?_, ?_, ?_⟩
  · unfold boundHistory
    rw [if_pos h4]
    exact greedyInclude_eq _ _ _
  · intro j hj
    exact includeCount_pos lens afterRecent j hj
  · intro hk
    have hlen : lens.length = (parsed.drop 4).length := List.length_map _ _
    exact includeCount_stop lens afterRecent (by rw [hlen]; exact hk)

/-- Witness for C7: five messages under a budget that admits none of
the older ones; the 4 newest survive anyway. -/
theorem claim_C7_witness :
    let afterRecent := (3 : Int) - ((sampleParsedHistory.take 4).map histLen).sum
    let lens := (sampleParsedHistory.drop 4).map histLen
    let k := includeCount afterRecent lens
    boundHistory sampleParsedHistory 3 =
      ((sampleParsedHistory.drop 4).take k).reverse ++ (sampleParsedHistory.take 4).reverse ∧
    (∀ j, j < k → 0 < afterRecent - ((lens.take (j + 1)).sum)) ∧
    (k < (sampleParsedHistory.drop 4).length → afterRecent - ((lens.take (k + 1)).sum) ≤ 0) :=
  claim_C7 sampleParsedHistory 3 (by decide)

/-- The chunk loop processes an appended suffix from the accumulator
state the prefix produced. -/
lemma openaiStream_append {α : Type} (parse : String → Option α) (cs : List SseChunk) :
    ∀ (acc : List (Nat × ToolAcc)) (cs2 : List SseChunk),
      openaiStream parse acc (cs ++ cs2) =
        openaiStream parse acc cs ++ openaiStream parse (accumulateChunks acc cs) cs2 := by
  induction cs with
  | nil => intro acc cs2; simp [openaiStream, accumulateChunks]
  | cons ch cs ih =>
      intro acc cs2
      simp only [List.cons_append, openaiStream, accumulateChunks, List.foldl_cons,
        List.append_eq]
      rw [ih]
      simp [accumulateChunks, List.append_assoc]

/-- C9: when the terminal finish reason arrives, the OpenAI stream
parser yields all previously streamed events unchanged followed by the
finish event, whose tool-call list is the accumulator filtered through
the argument parser: every accumulated entry whose argument text
parses appears (with its id and name), every entry whose text fails to
parse is silently omitted, and nothing is raised — the events are a
total function of the chunks.  Stated for an arbitrary parser, hence
for `json.loads`. -/
theorem claim_C9 {α : Type} (parse : String → Option α) (cs : List SseChunk) (c : SseChunk)
    (hfin : c.finishReason ≠ "") :
    (openaiStream parse [] (cs ++ [c]) =
      openaiStream parse [] cs ++
      (if c.content ≠ "" then [(c.content, "", none)] else []) ++
      [("", c.finishReason, finalizeToolCalls parse (accumulateChunks [] (cs ++ [c])))]) ∧
    (∀ (a : List (Nat × ToolAcc)) (l : List (String × String × α)) (p : Nat × ToolAcc) (x : α),
      finalizeToolCalls parse a = some l → p ∈ a → parse p.2.arguments = some x →
      (p.2.id, p.2.name, x) ∈ l) ∧
    (∀ (a : List (Nat × ToolAcc)) (l : List (String × String × α)),
      finalizeToolCalls parse a = some l →
      ∀ e ∈ l, ∃ p, p ∈ a ∧ parse p.2.arguments = some e.2.2 ∧
        e.1 = p.2.id ∧ e.2.1 = p.2.name) := by
  refine ⟨?_, ?_, ?_⟩
  · rw [openaiStream_append]
    simp only [openaiStream, accumulateChunks, List.foldl_append, List.foldl_cons,
      List.foldl_nil, List.append_nil]
    rw [if_pos hfin]
    simp [List.append_assoc]
  · intro a l p x h hp hx
    unfold finalizeToolCalls at h
    by_cases he : a.isEmpty = true
    · rw [if_pos he] at h
      exact absurd h (by simp)
    · rw [if_neg he] at h
      obtain rfl : a.filterMap _ = l := Option.some.inj h
      exact List.mem_filterMap.mpr ⟨p, hp, by simp [hx]⟩
  · intro a l h e he
    unfold finalizeToolCalls at h
    by_cases hae : a.isEmpty = true
    · rw [if_pos hae] at h
      exact absurd h (by simp)
    · rw [if_neg hae] at h
      obtain rfl : a.filterMap _ = l := Option.some.inj h
      obtain ⟨p, hp, hfp⟩ := List.mem_filterMap.mp he
      rcases hparse : parse p.2.arguments with _ | x
      · rw [hparse] at hfp; simp at hfp
      · rw [hparse] at hfp
        simp only [Option.map_some'] at hfp
        obtain rfl := Option.some.inj hfp
        exact ⟨p, hp, by simpa using hparse, rfl, rfl⟩

/-- Witness for C9 at a concrete transcript: two fragment chunks open
two tool calls (index 0 accumulating valid argument text, index 1
malformed), the finish chunk yields only the valid one, and the
earlier content event is preserved. -/
theorem claim_C9_witness :
    (openaiStream sampleArgParse [] ([sseFragmentChunk1, sseFragmentChunk2] ++ [sseFinishChunk]) =
      openaiStream sampleArgParse [] [sseFragmentChunk1, sseFragmentChunk2] ++
      (if sseFinishChunk.content ≠ "" then [(sseFinishChunk.content, "", none)] else []) ++
      [("", sseFinishChunk.finishReason,
        finalizeToolCalls sampleArgParse
          (accumulateChunks [] ([sseFragmentChunk1, sseFragmentChunk2] ++ [sseFinishChunk])))]) ∧
    openaiStream sampleArgParse [] ([sseFragmentChunk1, sseFragmentChunk2] ++ [sseFinishChunk]) =
      [("thinking", "", none), ("", "tool_calls", some [("call_a", "git_status", [])])] :=
  ⟨(claim_C9 sampleArgParse [sseFragmentChunk1, sseFragmentChunk2] sseFinishChunk (by decide)).1,
   by rfl⟩

/-- Every continuing iteration either leaves the planning phase or
resets the consecutive-presentation counter. -/
lemma orchStep_next_planning {cfg : OrchConfig} {s s' : OrchState} {inp : TurnInput}
    {eff : StepEffects} (h : orchStep cfg s inp = (.next s', eff)) :
    s'.inPlanningPhase = false ∨ s'.planLoopCount = 0 := by
  unfold orchStep execToolsStep at h
  repeat' (first | split at h | simp_all)
  all_goals (obtain ⟨h1, -⟩ := h; cases h1; simp)

/-- In every reachable loop state the planning phase carries a zero
consecutive-presentation count. -/
lemma reachable_planning_count_zero {cfg : OrchConfig} {s : OrchState}
    (h : OrchReachable cfg s) : s.inPlanningPhase = true → s.planLoopCount = 0 := by
  induction h with
  | init msgs => intro _; rfl
  | step inp eff hr hlt hstep ih =>
      intro hphase
      rcases orchStep_next_planning hstep with hf | hz
      · rw [hf] at hphase; simp at hphase
      · exact hz

/-- C3: (1) when a plan presentation (GOAL:/PLAN: markers, no tool
calls) arrives with two consecutive presentations already counted, the
iteration ends the turn with the loop-detected error and no approval
prompt; (2) any iteration that executes a tool batch and continues
resets the consecutive-presentation counter to zero. -/
theorem claim_C3 :
    (∀ (cfg : OrchConfig) (s : OrchState) (inp : TurnInput),
      cfg.requirePlanApproval = true → s.inPlanningPhase = true → s.planLoopCount = 2 →
      inp.toolCalls = [] →
      strContains inp.content "GOAL:" = true → strContains inp.content "PLAN:" = true →
      orchStep cfg s inp = (.finished .planLoopError, {})) ∧
    (∀ (cfg : OrchConfig) (s s' : OrchState) (inp : TurnInput) (eff : StepEffects),
      inp.toolCalls ≠ [] → orchStep cfg s inp = (.next s', eff) →
      s'.planLoopCount = 0) := by
  constructor
  · intro cfg s inp hrpa hphase hcount hnt hg hp
    unfold orchStep
    simp [hnt, hg, hp, hrpa, hphase, hcount]
  · intro cfg s s' inp eff hne hstep
    unfold orchStep execToolsStep at hstep
    rw [if_neg (by simp [hne])] at hstep
    repeat' (first | split at hstep | simp_all)
    all_goals (obtain ⟨h1, -⟩ := hstep; cases h1; simp)

/-- Witness for C3: the third consecutive presentation errors out, and
a concrete tool-executing iteration continues with the counter at
zero. -/
theorem claim_C3_witness :
    orchStep sampleOrchCfg twoPresentationsState planThirdTimeInput =
      (.finished .planLoopError, {}) ∧
    (∃ s1 eff, orchStep sampleOrchCfg (initOrchState sampleOrchCfg []) oneToolCallInput =
        (.next s1, eff) ∧ s1.planLoopCount = 0) := by
  obtain ⟨s1, eff, hstep⟩ :
      ∃ s1 eff, orchStep sampleOrchCfg (initOrchState sampleOrchCfg []) oneToolCallInput =
        (.next s1, eff) := ⟨_, _, rfl⟩
  exact ⟨claim_C3.1 sampleOrchCfg twoPresentationsState planThirdTimeInput rfl rfl rfl rfl
      (by decide) (by decide),
    s1, eff, hstep,
    claim_C3.2 sampleOrchCfg (initOrchState sampleOrchCfg []) s1 oneToolCallInput eff
      (by decide) hstep⟩

/-- C4: in every reachable loop state, a response with both plan
markers but no numbered step and no tool calls ends the turn as an
ordinary answer: no loop error, no approval prompt, no plan persisted
(the effects are empty). -/
theorem claim_C4 (cfg : OrchConfig) (s : OrchState) (inp : TurnInput)
    (hreach : OrchReachable cfg s)
    (hnt : inp.toolCalls = [])
    (hg : strContains inp.content "GOAL:" = true)
    (hp : strContains inp.content "PLAN:" = true)
    (hnum : hasNumberedStep inp.content = false) :
    orchStep cfg s inp = (.finished .markerWithoutSteps, {}) ∨
    orchStep cfg s inp = (.finished .ordinaryAnswer, {}) := by
  have hcz := reachable_planning_count_zero hreach
  by_cases hphase : s.inPlanningPhase = true
  · have h0 : s.planLoopCount = 0 := hcz hphase
    by_cases hrpa : cfg.requirePlanApproval = true
    · left
      unfold orchStep
      simp [hnt, hg, hp, hrpa, hphase, h0, hnum]
    · right
      unfold orchStep
      simp [hnt, hg, hp, hrpa]
  · right
    unfold orchStep
    simp [hnt, hphase]

/-- Witness for C4: from the initial state, a marker-bearing response
without numbered steps ends the turn without the approval workflow. -/
theorem claim_C4_witness :
    orchStep sampleOrchCfg (initOrchState sampleOrchCfg []) planNoStepsInput =
      (.finished .markerWithoutSteps, {}) ∨
    orchStep sampleOrchCfg (initOrchState sampleOrchCfg []) planNoStepsInput =
      (.finished .ordinaryAnswer, {}) :=
  claim_C4 sampleOrchCfg (initOrchState sampleOrchCfg []) planNoStepsInput
    (.init []) rfl (by decide) (by decide) (by decide)

/-- C1 counterexample: the claim is false for `read_file`.  With a
path argument containing a `..` traversal segment — which
`validate_file_path` denies — `execute_tool` still reads and returns
the file contents: the `read_file` branch never consults the gate. -/
theorem claim_C1_counterexample :
    (execute_tool sampleToolEnv [] "read_file" { file_path := some "../secret.txt" }).1 =
      { result := "p4ssw0rd\n", writes := [] } ∧
    (validate_file_path samplePathEnv "../secret.txt" "read file").ok = false := by
  constructor
  · rfl
  · decide

/-- C1 (amended): the path-validation gate is applied only by the
file-mutating tools `create_file`, `edit_file` and `edit_file_lines`
(where an invalid verdict aborts the operation, returning the gate's
message with no write); `read_file`, `open_file`, `find_in_file` and
`list_directory` run without consulting the gate at all (their results
do not depend on the path environment).  Where applied, the gate
behaves as the claim states: blocked system directories are denied
without prompting, `..` traversal segments are denied, paths resolving
inside the working directory are allowed without prompting, and paths
outside it are decided by the user with deny as the default. -/
theorem claim_C1 :
    (∀ (env : ToolEnv) (cache : ApprovalCache) (args : ToolArgs) (fp : String),
      args.file_path = some fp →
      (check_tool_approval env.requireApproval cache "create_file" env.approvalPrompt).approved = true →
      (validate_file_path env.pathEnv fp "create file").ok = false →
      (execute_tool env cache "create_file" args).1 =
        { result := (validate_file_path env.pathEnv fp "create file").msg.getD "", writes := [] }) ∧
    (∀ (env : ToolEnv) (cache : ApprovalCache) (args : ToolArgs) (fp : String),
      args.file_path = some fp →
      (check_tool_approval env.requireApproval cache "edit_file" env.approvalPrompt).approved = true →
      (validate_file_path env.pathEnv fp "edit file").ok = false →
      (execute_tool env cache "edit_file" args).1 =
        { result := (validate_file_path env.pathEnv fp "edit file").msg.getD "", writes := [] }) ∧
    (∀ (env : ToolEnv) (cache : ApprovalCache) (args : ToolArgs) (fp : String),
      args.file_path = some fp →
      (check_tool_approval env.requireApproval cache "edit_file_lines" env.approvalPrompt).approved = true →
      (validate_file_path env.pathEnv fp "edit file").ok = false →
      (execute_tool env cache "edit_file_lines" args).1 =
        { result := (validate_file_path env.pathEnv fp "edit file").msg.getD "", writes := [] }) ∧
    (∀ (env : ToolEnv) (pe : PathEnv) (cache : ApprovalCache) (args : ToolArgs) (t : String),
      t ∈ (["read_file", "open_file", "find_in_file", "list_directory"] : List String) →
      execute_tool { env with pathEnv := pe } cache t args = execute_tool env cache t args) ∧
    (∀ (penv : PathEnv) (fp op : String),
      isBlockedSystemPath (penv.realpathOf fp) = true →
      (validate_file_path penv fp op).ok = false ∧
      (validate_file_path penv fp op).prompted = false) ∧
    (∀ (penv : PathEnv) (fp op : String),
      (penv.normParts fp).contains ".." = true →
      (validate_file_path penv fp op).ok = false) ∧
    (∀ (penv : PathEnv) (fp op : String),
      isBlockedSystemPath (penv.realpathOf fp) = false →
      (penv.normParts fp).contains ".." = false →
      penv.withinProject (penv.realpathOf fp) = true →
      validate_file_path penv fp op = { ok := true, msg := none, prompted := false }) ∧
    (∀ (penv : PathEnv) (fp op : String),
      isBlockedSystemPath (penv.realpathOf fp) = false →
      (penv.normParts fp).contains ".." = false →
      penv.withinProject (penv.realpathOf fp) = false →
      (validate_file_path penv fp op).prompted = true ∧
      ((validate_file_path penv fp op).ok = true ↔ penv.confirmOutsideProject fp = .yes)) := by
  refine ⟨?_, ?_, ?_, ?_, ?_, ?_, ?_, ?_⟩
  · intro env cache args fp hfp happ hval
    simp [execute_tool, runToolBody, toolCreateFile, validateOpt, happ, hfp, hval]
  · intro env cache args fp hfp happ hval
    simp [execute_tool, runToolBody, toolEditFile, validateOpt, happ, hfp, hval]
  · intro env cache args fp hfp happ hval
    simp [execute_tool, runToolBody, toolEditFileLines, validateOpt, happ, hfp, hval]
  · intro env pe cache args t ht
    fin_cases ht
    · rfl
    · rfl
    · rfl
    · rfl
  · intro penv fp op hblock
    unfold validate_file_path
    rw [if_pos hblock]
    exact ⟨rfl, rfl⟩
  · intro penv fp op hdots
    unfold validate_file_path
    by_cases hblock : isBlockedSystemPath (penv.realpathOf fp) = true
    · rw [if_pos hblock]
    · rw [if_neg hblock, if_pos hdots]
  · intro penv fp op hblock hdots hin
    unfold validate_file_path
    rw [if_neg (by simp [hblock]), if_neg (by rw [hdots]; simp), if_pos hin]
  · intro penv fp op hblock hdots hout
    unfold validate_file_path
    rw [if_neg (by simp [hblock]), if_neg (by rw [hdots]; simp), if_neg (by simp [hout])]
    rcases hc : penv.confirmOutsideProject fp with _ | _ | m
    all_goals simp [hc]

/-- Witness for C1: the create-file gate rejects the traversal path
and no write happens; swapping the path environment does not change
`read_file`; a path resolving under `/etc/` is denied silently; a path
inside the project validates silently; a path outside the project is
decided by the confirmation dialog. -/
theorem claim_C1_witness :
    (execute_tool sampleToolEnv [] "create_file"
        { file_path := some "../secret.txt", content := some "x" }).1 =
      { result := (validate_file_path samplePathEnv "../secret.txt" "create file").msg.getD "",
        writes := [] } ∧
    execute_tool { sampleToolEnv with pathEnv := idPathEnv } [] "read_file"
        { file_path := some "../secret.txt" } =
      execute_tool sampleToolEnv [] "read_file" { file_path := some "../secret.txt" } ∧
    ((validate_file_path idPathEnv "/etc/passwd" "edit file").ok = false ∧
      (validate_file_path idPathEnv "/etc/passwd" "edit file").prompted = false) ∧
    validate_file_path idPathEnv "/home/user/proj/notes.txt" "create file" =
      { ok := true, msg := none, prompted := false } ∧
    ((validate_file_path idPathEnv "/srv/data.txt" "create file").prompted = true ∧
      ((validate_file_path idPathEnv "/srv/data.txt" "create file").ok = true ↔
        idPathEnv.confirmOutsideProject "/srv/data.txt" = .yes)) :=
  ⟨claim_C1.1 sampleToolEnv [] { file_path := some "../secret.txt", content := some "x" }
      "../secret.txt" rfl (by decide) (by decide),
   claim_C1.2.2.2.1 sampleToolEnv idPathEnv [] { file_path := some "../secret.txt" }
      "read_file" (by decide),
   claim_C1.2.2.2.2.1 idPathEnv "/etc/passwd" "edit file" (by decide),
   claim_C1.2.2.2.2.2.2.1 idPathEnv "/home/user/proj/notes.txt" "create file"
      (by decide) (by decide) (by decide),
   claim_C1.2.2.2.2.2.2.2 idPathEnv "/srv/data.txt" "create file"
      (by decide) (by decide) (by decide)⟩

/-- C2 counterexample: a subprocess timeout does not always yield the
"Tool execution timed out" string.  The `git_status` branch wraps its
subprocess call in its own blanket handler, so a timeout there is
converted to the branch's descriptive error string instead. -/
theorem claim_C2_counterexample :
    (execute_tool gitTimeoutEnv [] "git_status" {}).1.result =
      "Error running git status: Command git status timed out after 10 seconds" ∧
    strContains (execute_tool gitTimeoutEnv [] "git_status" {}).1.result
      "Tool execution timed out" = false := by
  constructor
  · rfl
  · decide

/-- C2 (amended): `execute_tool` is a total function into strings — the
model resolves every escaped exception at the dispatcher.  An unknown
tool name yields the "Unknown tool" string; a subprocess timeout that
reaches the dispatcher (the `find_in_file` and `find_file_in_project`
branches have no handler of their own) yields the "Tool execution
timed out" string; any other exception reaching the dispatcher yields
the generic descriptive error string; and a timeout inside a branch
with its own blanket handler (here `git_status`) yields that branch's
descriptive error string instead. -/
theorem claim_C2 :
    (∀ (env : ToolEnv) (cache : ApprovalCache) (name : String) (args : ToolArgs),
      (check_tool_approval env.requireApproval cache name env.approvalPrompt).approved = true →
      name ∉ knownToolNames →
      (execute_tool env cache name args).1.result = "Unknown tool: " ++ name) ∧
    (∀ (env : ToolEnv) (cache : ApprovalCache) (args : ToolArgs) (fp pat m : String),
      args.file_path = some fp → args.pattern = some pat →
      args.case_sensitive = none → args.use_regex = none →
      (check_tool_approval env.requireApproval cache "find_in_file" env.approvalPrompt).approved = true →
      env.run ["grep", "-n", "-F", "-i", pat, fp] = .error (.timeoutExpired m) →
      (execute_tool env cache "find_in_file" args).1.result =
        "Tool execution timed out: " ++ "find_in_file") ∧
    (∀ (env : ToolEnv) (cache : ApprovalCache) (args : ToolArgs) (fp pat m : String),
      args.file_path = some fp → args.pattern = some pat →
      args.case_sensitive = none → args.use_regex = none →
      (check_tool_approval env.requireApproval cache "find_in_file" env.approvalPrompt).approved = true →
      env.run ["grep", "-n", "-F", "-i", pat, fp] = .error (.otherError m) →
      (execute_tool env cache "find_in_file" args).1.result =
        "Error executing tool " ++ "find_in_file" ++ ": " ++ m) ∧
    (∀ (env : ToolEnv) (cache : ApprovalCache) (args : ToolArgs) (m : String),
      (check_tool_approval env.requireApproval cache "git_status" env.approvalPrompt).approved = true →
      env.run ["git", "status"] = .error (.timeoutExpired m) →
      (execute_tool env cache "git_status" args).1.result =
        "Error running git status: " ++ m) := by
  refine ⟨?_, ?_, ?_, ?_⟩
  · intro env cache name args happ hname
    simp only [knownToolNames, List.mem_cons, List.not_mem_nil, or_false, not_or] at hname
    obtain ⟨h1, h2, h3, h4, h5, h6, h7, h8, h9, h10, h11, h12, h13, h14, h15, h16, h17⟩ := hname
    simp [execute_tool, runToolBody, happ, h1, h2, h3, h4, h5, h6, h7, h8, h9, h10,
      h11, h12, h13, h14, h15, h16, h17]
  · intro env cache args fp pat m hfp hpat hcs hur happ hrun
    simp [execute_tool, runToolBody, toolFindInFile, happ, hfp, hpat, hcs, hur, hrun]
  · intro env cache args fp pat m hfp hpat hcs hur happ hrun
    simp [execute_tool, runToolBody, toolFindInFile, happ, hfp, hpat, hcs, hur, hrun, PyExc.msg]
  · intro env cache args m happ hrun
    simp [execute_tool, runToolBody, toolGitStatus, happ, hrun, PyExc.msg]

/-- Witness for C2: a fresh unknown tool name, a grep timeout, a grep
failure and a git-status timeout, each at a concrete environment. -/
theorem claim_C2_witness :
    (execute_tool sampleToolEnv [] "frobnicate" {}).1.result = "Unknown tool: " ++ "frobnicate" ∧
    (execute_tool gitTimeoutEnv [] "find_in_file"
        { file_path := some "a.txt", pattern := some "x" }).1.result =
      "Tool execution timed out: " ++ "find_in_file" ∧
    (execute_tool sampleToolEnv [] "find_in_file"
        { file_path := some "a.txt", pattern := some "x" }).1.result =
      "Error executing tool " ++ "find_in_file" ++ ": " ++ "no subprocess" ∧
    (execute_tool gitTimeoutEnv [] "git_status" {}).1.result =
      "Error running git status: " ++ "Command git status timed out after 10 seconds" :=
  ⟨claim_C2.1 sampleToolEnv [] "frobnicate" {} (by decide) (by decide),
   claim_C2.2.1 gitTimeoutEnv [] { file_path := some "a.txt", pattern := some "x" }
      "a.txt" "x" "Command git status timed out after 10 seconds" rfl rfl rfl rfl
      (by decide) rfl,
   claim_C2.2.2.1 sampleToolEnv [] { file_path := some "a.txt", pattern := some "x" }
      "a.txt" "x" "no subprocess" rfl rfl rfl rfl (by decide) rfl,
   claim_C2.2.2.2 gitTimeoutEnv [] {} "Command git status timed out after 10 seconds"
      (by decide) rfl⟩

/-- C10: when `create_file` runs to a successful write, a target path
ending in `.vim-chatgpt/summary.md` or `.vim-llm-agent/summary.md`
gets the SUMMARY_METADATA header silently prepended, with cutoff_byte
computed as `max(0, size of the sibling history.txt − configured
recent window)` and 0 when history.txt is absent; every other target
path is written with the supplied content verbatim. -/
theorem claim_C10 :
    (∀ (env : ToolEnv) (cache : ApprovalCache) (args : ToolArgs) (fp content : String) (n : Int),
      args.file_path = some fp → args.content = some content →
      (check_tool_approval env.requireApproval cache "create_file" env.approvalPrompt).approved = true →
      (validate_file_path env.pathEnv fp "create file").ok = true →
      (env.pathExists fp && !(args.overwrite.getD false)) = false →
      (if pyDirname fp ≠ "" && !env.pathExists (pyDirname fp)
        then env.makeDirs (pyDirname fp) else none) = none →
      (pyEndsWith fp ".vim-chatgpt/summary.md" || pyEndsWith fp ".vim-llm-agent/summary.md") = true →
      (if env.pathExists fp then (env.readWhole fp).map (fun _ => 0) else .ok 0) = .ok (0 : Nat) →
      env.pathExists (pyJoin (pyDirname fp) "history.txt") = true →
      env.fileSize (pyJoin (pyDirname fp) "history.txt") = .ok n →
      env.writeOutcome fp = none →
      (execute_tool env cache "create_file" args).1.writes =
        [(fp, summaryMetadataHeader (pyMax0 (n - env.recentHistoryWindow)) env.today ++ content)]) ∧
    (∀ (env : ToolEnv) (cache : ApprovalCache) (args : ToolArgs) (fp content : String),
      args.file_path = some fp → args.content = some content →
      (check_tool_approval env.requireApproval cache "create_file" env.approvalPrompt).approved = true →
      (validate_file_path env.pathEnv fp "create file").ok = true →
      (env.pathExists fp && !(args.overwrite.getD false)) = false →
      (if pyDirname fp ≠ "" && !env.pathExists (pyDirname fp)
        then env.makeDirs (pyDirname fp) else none) = none →
      (pyEndsWith fp ".vim-chatgpt/summary.md" || pyEndsWith fp ".vim-llm-agent/summary.md") = true →
      (if env.pathExists fp then (env.readWhole fp).map (fun _ => 0) else .ok 0) = .ok (0 : Nat) →
      env.pathExists (pyJoin (pyDirname fp) "history.txt") = false →
      env.writeOutcome fp = none →
      (execute_tool env cache "create_file" args).1.writes =
        [(fp, summaryMetadataHeader 0 env.today ++ content)]) ∧
    (∀ (env : ToolEnv) (cache : ApprovalCache) (args : ToolArgs) (fp content : String),
      args.file_path = some fp → args.content = some content →
      (check_tool_approval env.requireApproval cache "create_file" env.approvalPrompt).approved = true →
      (validate_file_path env.pathEnv fp "create file").ok = true →
      (env.pathExists fp && !(args.overwrite.getD false)) = false →
      (if pyDirname fp ≠ "" && !env.pathExists (pyDirname fp)
        then env.makeDirs (pyDirname fp) else none) = none →
      (pyEndsWith fp ".vim-chatgpt/summary.md" || pyEndsWith fp ".vim-llm-agent/summary.md") = false →
      env.writeOutcome fp = none →
      (execute_tool env cache "create_file" args).1.writes = [(fp, content)]) := by
  refine ⟨?_, ?_, ?_⟩
  · intro env cache args fp content n hfp hcont happ hval hexo hmk hsuffix hold hhist hsize hw
    have hmk2 : (if ¬pyDirname fp = "" ∧ env.pathExists (pyDirname fp) = false
        then env.makeDirs (pyDirname fp) else none) = none := by simpa using hmk
    simp [execute_tool, runToolBody, toolCreateFile, validateOpt, happ, hfp, hcont, hval,
      hexo, hmk2, hsuffix, hold, hhist, hsize, hw]
  · intro env cache args fp content hfp hcont happ hval hexo hmk hsuffix hold hhist hw
    have hmk2 : (if ¬pyDirname fp = "" ∧ env.pathExists (pyDirname fp) = false
        then env.makeDirs (pyDirname fp) else none) = none := by simpa using hmk
    simp [execute_tool, runToolBody, toolCreateFile, validateOpt, happ, hfp, hcont, hval,
      hexo, hmk2, hsuffix, hold, hhist, hw]
  · intro env cache args fp content hfp hcont happ hval hexo hmk hsuffix hw
    have hmk2 : (if ¬pyDirname fp = "" ∧ env.pathExists (pyDirname fp) = false
        then env.makeDirs (pyDirname fp) else none) = none := by simpa using hmk
    simp [execute_tool, runToolBody, toolCreateFile, validateOpt, happ, hfp, hcont, hval,
      hexo, hmk2, hsuffix, hw]

/-- Witness for C10: writing `proj/.vim-chatgpt/summary.md` beside a
50000-byte history with a 30480-byte window prepends the header with
cutoff 19520; writing `proj/notes.md` stores the content verbatim. -/
theorem claim_C10_witness :
    (execute_tool createFileEnv [] "create_file" c10SummaryArgs).1.writes =
      [("proj/.vim-chatgpt/summary.md",
        summaryMetadataHeader (pyMax0 (50000 - createFileEnv.recentHistoryWindow))
          createFileEnv.today ++ "New summary.")] ∧
    (execute_tool createFileEnv [] "create_file" c10NotesArgs).1.writes =
      [("proj/notes.md", "Plain notes.")] :=
  ⟨claim_C10.1 createFileEnv [] c10SummaryArgs "proj/.vim-chatgpt/summary.md" "New summary."
      50000 rfl rfl (by decide) (by decide) (by decide) (by decide) (by decide) rfl
      (by decide) rfl (by decide),
   claim_C10.2.2 createFileEnv [] c10NotesArgs "proj/notes.md" "Plain notes."
      rfl rfl (by decide) (by decide) (by decide) (by decide) (by decide) (by decide)⟩

end VimLlmAgent
